import Mathlib

/-!
# Verification of the Feedonomics API client (FdxClient / FdxService)

Shallow embedding of the request/response normalization layer
(`src/lib/FdxClient.ts`) and the orchestration layer (`FdxService`,
`setupBigCommerceIntegration`) of the `fdx-client` repository, together
with proofs about the envelope shapes, precondition guards, the
get-or-create patterns, the composite setup workflow, and the
BigCommerce preprocessor URL builder.

Response bodies are modelled as JSON-like trees, HTTP traffic as an
oracle mapping a request descriptor to an outcome, and strings in the
URL builder as lists of Unicode code points so that the byte-exact
percent-encoding behaviour of `encodeURIComponent` and of the WHATWG
`application/x-www-form-urlencoded` serializer (used by
`URLSearchParams.toString`) can be stated and proved.
-/

namespace Fdx

/-- JSON-like values, modelling the JavaScript data that flows through
`axios` response bodies and request payloads. -/
inductive Json where
  | null : Json
  | str (s : String) : Json
  | num (n : Int) : Json
  | bool (b : Bool) : Json
  | arr (elems : List Json) : Json
  | obj (fields : List (String × Json)) : Json

/-- Property access `j[k]` on a JSON object (first binding wins, as for
JavaScript objects whose keys are unique). -/
def Json.lookup : Json → String → Option Json
  | .obj fields, k => List.lookup k fields
  | _, _ => none

/-- JavaScript truthiness of a defined value. -/
def jsTruthy : Json → Bool
  | .null => false
  | .str s => !(s == "")
  | .num n => !(n == 0)
  | .bool b => b
  | .arr _ => true
  | .obj _ => true

/-- JavaScript truthiness of a possibly-`undefined` value. -/
def jsOptTruthy : Option Json → Bool
  | none => false
  | some j => jsTruthy j

/-- Optional chaining `d?.[k]`: property access through a
possibly-`undefined` object. -/
def jsonIndexOpt (d : Option Json) (k : String) : Option Json :=
  match d with
  | none => none
  | some j => j.lookup k

/-- JavaScript `x || d` for a string-or-`undefined` `x`: the fallback is
used when `x` is `undefined` or the empty string (both falsy). -/
def jsOrString (x : Option String) (d : String) : String :=
  match x with
  | none => d
  | some s => if s = "" then d else s

/-- String conversion of a JSON value, as performed by JavaScript
template-literal interpolation (`Array.prototype.toString` joins with
commas; plain objects render as `[object Object]`). -/
def idToString : Json → String
  | .null => "null"
  | .str s => s
  | .num n => toString n
  | .bool b => cond b "true" "false"
  | .arr l => String.intercalate "," (l.map fun e =>
      match e with
      | .null => ""
      | .str s => s
      | .num n => toString n
      | .bool b => cond b "true" "false"
      | .arr _ => ""
      | .obj _ => "[object Object]")
  | .obj _ => "[object Object]"

/-- String interpolation of a possibly-`undefined` value
(`${x}` renders `undefined` as the string `"undefined"`). -/
def optIdToString : Option Json → String
  | none => "undefined"
  | some j => idToString j

/-- The uniform result envelope (`ServiceResponse<T>` in
`src/types.ts`): success flag plus optional payload, error message and
HTTP status code. -/
structure ServiceResponse where
  success : Bool
  data : Option Json
  error : Option String
  status : Option Nat

/-- `${result.error}` — template interpolation of the envelope's error
field, rendering `undefined` literally. -/
def errStr (r : ServiceResponse) : String :=
  match r.error with
  | none => "undefined"
  | some s => s

/-- A failure envelope carrying only an error message (no payload, no
status code), as built throughout `FdxService`. -/
def failEnv (msg : String) : ServiceResponse :=
  { success := false, data := none, error := some msg, status := none }

/-- A success envelope carrying only a payload, as built throughout
`FdxService`. -/
def okEnv (d : Option Json) : ServiceResponse :=
  { success := true, data := d, error := none, status := none }

/-! ## The axios transport layer -/

/-- An HTTP response as delivered by axios: status code plus parsed
body. -/
structure AxiosResponse where
  status : Nat
  body : Json

/-- The error object axios rejects with: a message, plus the structured
response when the server did reply (HTTP-level failure) and `none` for
transport-level failures. -/
structure AxiosError where
  message : String
  response : Option AxiosResponse

/-- What happened on the wire for one outbound call: either a response
arrived (any status) or the transport failed (network error, timeout). -/
inductive WireOutcome where
  | response (r : AxiosResponse) : WireOutcome
  | networkError (message : String) : WireOutcome

/-- axios' promise semantics under the default `validateStatus`: a
response with status in [200,300) resolves; any other status rejects
with an error carrying the structured response; a transport failure
rejects with no response attached. -/
def axiosSend : WireOutcome → Except AxiosError AxiosResponse
  | .response r =>
      if 200 ≤ r.status ∧ r.status < 300 then .ok r
      else .error { message := "Request failed with status code " ++ toString r.status,
                    response := some r }
  | .networkError m => .error { message := m, response := none }

/-- `response.data?.message` — the server-supplied message field, when
the body is an object with a string `message` property. -/
def bodyMessage (b : Json) : Option String :=
  match b.lookup "message" with
  | some (.str s) => some s
  | _ => none

/-- `FdxClient.processResponse` (`FdxClient.ts` lines 82–96): statuses
in [200,300) map to a success envelope carrying the body; anything else
maps to a failure envelope with the server message or the placeholder
`'Unknown error'`. -/
def processResponse (r : AxiosResponse) : ServiceResponse :=
  if 200 ≤ r.status ∧ r.status < 300 then
    { success := true, data := some r.body, error := none, status := some r.status }
  else
    { success := false, data := none,
      error := some (jsOrString (bodyMessage r.body) "Unknown error"),
      status := some r.status }

namespace FdxClient

/-- `FdxClient.request` (`FdxClient.ts` lines 106–136): the resolved
response goes through `processResponse`; a rejection with a structured
response maps to a failure envelope with the server message or the
placeholder `'API error'` and the response's status; a rejection without
a response maps to a failure envelope with the exception message (or
`'Network error'`) and no status. -/
def request (w : WireOutcome) : ServiceResponse :=
  match axiosSend w with
  | .ok response => processResponse response
  | .error e =>
      match e.response with
      | some r =>
          { success := false, data := none,
            error := some (jsOrString (bodyMessage r.body) "API error"),
            status := some r.status }
      | none =>
          { success := false, data := none,
            error := some (jsOrString (some e.message) "Network error"),
            status := none }

end FdxClient

/-! ## Client state, request descriptors and the call oracle -/

/-- The session context held by an `FdxClient` instance: auth token,
optional active-database identifier, base endpoint, timeout and verbose
flag (`FdxClient.ts` constructor). -/
structure ClientState where
  apiToken : String
  dbId : Option String
  baseUrl : String
  timeout : Nat
  verbose : Bool

/-- `FdxClient.setDbId` (`FdxClient.ts` lines 580–582). -/
def setDbId (st : ClientState) (dbId : String) : ClientState :=
  { st with dbId := some dbId }

/-- `FdxClient.getDbId` (`FdxClient.ts` lines 588–590). -/
def getDbId (st : ClientState) : Option String :=
  st.dbId

/-- An outbound request descriptor: HTTP method and resource path. -/
structure HttpRequest where
  method : String
  url : String
deriving DecidableEq

/-- The environment's behaviour for one client call: either the
underlying HTTP exchange finishes on the wire (and `FdxClient.request`
normalizes it), or the invocation raises an exception instead of
returning an envelope.  The `throwErr` case models a call that throws —
the path the repository's test-suite exercises by mocking whole client
methods with rejected promises — and is what the composite workflow's
catch-all exists to absorb. -/
inductive CallBehavior where
  | wire (w : WireOutcome) : CallBehavior
  | throwErr (message : String) : CallBehavior

/-- The remote service: what each issued request's invocation does. -/
def Oracle : Type := HttpRequest → CallBehavior

/-- Issue one call: the result of the invocation (an envelope from
`FdxClient.request`, or a raised exception) together with the singleton
trace of the call issued. -/
def performRequest (oracle : Oracle) (method url : String) :
    Except String ServiceResponse × List HttpRequest :=
  match oracle { method := method, url := url } with
  | .wire w => (.ok (FdxClient.request w), [{ method := method, url := url }])
  | .throwErr m => (.error m, [{ method := method, url := url }])

/-- The fixed failure envelope every database-scoped operation returns
when the active-database identifier is unset: fixed message, no payload,
no status code. -/
def dbIdRequiredError : ServiceResponse :=
  failEnv "Database ID is required. Please set it using setDbId() first."

/-- `if (!this.dbId)` — the JavaScript falsiness test on the session's
active-database identifier (`undefined` and the empty string are both
falsy). -/
def dbIdUnset (st : ClientState) : Bool :=
  match st.dbId with
  | none => true
  | some s => s == ""

/-- The string the active-database identifier interpolates to in paths
(only consulted when it is set). -/
def dbIdStr (st : ClientState) : String :=
  match st.dbId with
  | none => ""
  | some s => s

namespace FdxClient

/-! Client operations.  Each database-scoped operation repeats the
`if (!this.dbId)` guard independently, exactly as in the source; the
request bodies are not part of the request descriptor (no claim depends
on them). -/

/-- `FdxClient.invitePrimaryUser`. -/
def invitePrimaryUser (st : ClientState) (oracle : Oracle) (accountId : String) :
    Except String ServiceResponse × List HttpRequest :=
  let _ := st
  performRequest oracle "POST" ("/accounts/" ++ accountId ++ "/user_account_permissions")

/-- `FdxClient.applyAutomateBuildTemplate` (db-scoped). -/
def applyAutomateBuildTemplate (st : ClientState) (oracle : Oracle) :
    Except String ServiceResponse × List HttpRequest :=
  if dbIdUnset st then (.ok dbIdRequiredError, [])
  else performRequest oracle "POST" ("/dbs/" ++ dbIdStr st ++ "/apply_automate_build_template")

/-- `FdxClient.feedBuild` (db-scoped). -/
def feedBuild (st : ClientState) (oracle : Oracle) (buildId : String) :
    Except String ServiceResponse × List HttpRequest :=
  if dbIdUnset st then (.ok dbIdRequiredError, [])
  else performRequest oracle "GET" ("/dbs/" ++ dbIdStr st ++ "/builds/" ++ buildId)

/-- `FdxClient.cancelBuild` (db-scoped). -/
def cancelBuild (st : ClientState) (oracle : Oracle) (buildId : String) :
    Except String ServiceResponse × List HttpRequest :=
  if dbIdUnset st then (.ok dbIdRequiredError, [])
  else performRequest oracle "POST" ("/dbs/" ++ dbIdStr st ++ "/builds/" ++ buildId ++ "/cancel")

/-- `FdxClient.accounts`. -/
def accounts (st : ClientState) (oracle : Oracle) :
    Except String ServiceResponse × List HttpRequest :=
  let _ := st
  performRequest oracle "GET" "/user/accounts"

/-- `FdxClient.createDb`. -/
def createDb (st : ClientState) (oracle : Oracle) (accountId : String) :
    Except String ServiceResponse × List HttpRequest :=
  let _ := st
  performRequest oracle "POST" ("/accounts/" ++ accountId ++ "/dbs")

/-- `FdxClient.deleteDb`. -/
def deleteDb (st : ClientState) (oracle : Oracle) (dbId : String) :
    Except String ServiceResponse × List HttpRequest :=
  let _ := st
  performRequest oracle "DELETE" ("/dbs/" ++ dbId)

/-- `FdxClient.vault`. -/
def vault (st : ClientState) (oracle : Oracle) :
    Except String ServiceResponse × List HttpRequest :=
  let _ := st
  performRequest oracle "GET" "/vault"

/-- `FdxClient.createVault`. -/
def createVault (st : ClientState) (oracle : Oracle) :
    Except String ServiceResponse × List HttpRequest :=
  let _ := st
  performRequest oracle "POST" "/vault"

/-- `FdxClient.updateVault`. -/
def updateVault (st : ClientState) (oracle : Oracle) (id : String) :
    Except String ServiceResponse × List HttpRequest :=
  let _ := st
  performRequest oracle "PUT" ("/vault/" ++ id)

/-- `FdxClient.deleteVault`. -/
def deleteVault (st : ClientState) (oracle : Oracle) (id : String) :
    Except String ServiceResponse × List HttpRequest :=
  let _ := st
  performRequest oracle "DELETE" ("/vault/" ++ id)

/-- `FdxClient.ftpAccounts` (db-scoped). -/
def ftpAccounts (st : ClientState) (oracle : Oracle) :
    Except String ServiceResponse × List HttpRequest :=
  if dbIdUnset st then (.ok dbIdRequiredError, [])
  else performRequest oracle "GET" ("/dbs/" ++ dbIdStr st ++ "/ftp")

/-- `FdxClient.createFtpAccounts` (db-scoped). -/
def createFtpAccounts (st : ClientState) (oracle : Oracle) :
    Except String ServiceResponse × List HttpRequest :=
  if dbIdUnset st then (.ok dbIdRequiredError, [])
  else performRequest oracle "POST" ("/dbs/" ++ dbIdStr st ++ "/ftp")

/-- `FdxClient.imports` (db-scoped). -/
def imports (st : ClientState) (oracle : Oracle) :
    Except String ServiceResponse × List HttpRequest :=
  if dbIdUnset st then (.ok dbIdRequiredError, [])
  else performRequest oracle "GET" ("/dbs/" ++ dbIdStr st ++ "/imports")

/-- `FdxClient.createImport` (db-scoped). -/
def createImport (st : ClientState) (oracle : Oracle) :
    Except String ServiceResponse × List HttpRequest :=
  if dbIdUnset st then (.ok dbIdRequiredError, [])
  else performRequest oracle "POST" ("/dbs/" ++ dbIdStr st ++ "/imports")

/-- `FdxClient.updateImport` (db-scoped). -/
def updateImport (st : ClientState) (oracle : Oracle) (importId : String) :
    Except String ServiceResponse × List HttpRequest :=
  if dbIdUnset st then (.ok dbIdRequiredError, [])
  else performRequest oracle "PUT" ("/dbs/" ++ dbIdStr st ++ "/imports/" ++ importId)

/-- `FdxClient.updateImportSchedule` (db-scoped). -/
def updateImportSchedule (st : ClientState) (oracle : Oracle) (importId : String) :
    Except String ServiceResponse × List HttpRequest :=
  if dbIdUnset st then (.ok dbIdRequiredError, [])
  else performRequest oracle "PUT" ("/dbs/" ++ dbIdStr st ++ "/imports/" ++ importId ++ "/schedule")

/-- `FdxClient.exports` (db-scoped). -/
def exports (st : ClientState) (oracle : Oracle) :
    Except String ServiceResponse × List HttpRequest :=
  if dbIdUnset st then (.ok dbIdRequiredError, [])
  else performRequest oracle "GET" ("/dbs/" ++ dbIdStr st ++ "/exports")

/-- `FdxClient.createExport` (db-scoped). -/
def createExport (st : ClientState) (oracle : Oracle) :
    Except String ServiceResponse × List HttpRequest :=
  if dbIdUnset st then (.ok dbIdRequiredError, [])
  else performRequest oracle "POST" ("/dbs/" ++ dbIdStr st ++ "/exports")

/-- `FdxClient.updateExport` (db-scoped). -/
def updateExport (st : ClientState) (oracle : Oracle) (exportId : String) :
    Except String ServiceResponse × List HttpRequest :=
  if dbIdUnset st then (.ok dbIdRequiredError, [])
  else performRequest oracle "PUT" ("/dbs/" ++ dbIdStr st ++ "/exports/" ++ exportId)

/-- `FdxClient.scheduleExport` (db-scoped). -/
def scheduleExport (st : ClientState) (oracle : Oracle) (exportId : String) :
    Except String ServiceResponse × List HttpRequest :=
  if dbIdUnset st then (.ok dbIdRequiredError, [])
  else performRequest oracle "POST" ("/dbs/" ++ dbIdStr st ++ "/exports/" ++ exportId ++ "/schedule")

/-- `FdxClient.transformers` (db-scoped). -/
def transformers (st : ClientState) (oracle : Oracle) :
    Except String ServiceResponse × List HttpRequest :=
  if dbIdUnset st then (.ok dbIdRequiredError, [])
  else performRequest oracle "GET" ("/dbs/" ++ dbIdStr st ++ "/transformers")

/-- `FdxClient.createTransformer` (db-scoped). -/
def createTransformer (st : ClientState) (oracle : Oracle) :
    Except String ServiceResponse × List HttpRequest :=
  if dbIdUnset st then (.ok dbIdRequiredError, [])
  else performRequest oracle "POST" ("/dbs/" ++ dbIdStr st ++ "/transformers")

/-- `FdxClient.updateTransformer` (db-scoped). -/
def updateTransformer (st : ClientState) (oracle : Oracle) (transformerId : String) :
    Except String ServiceResponse × List HttpRequest :=
  if dbIdUnset st then (.ok dbIdRequiredError, [])
  else performRequest oracle "PUT" ("/dbs/" ++ dbIdStr st ++ "/transformers/" ++ transformerId)

/-- `FdxClient.updateDbFields` (db-scoped). -/
def updateDbFields (st : ClientState) (oracle : Oracle) :
    Except String ServiceResponse × List HttpRequest :=
  if dbIdUnset st then (.ok dbIdRequiredError, [])
  else performRequest oracle "PUT" ("/dbs/" ++ dbIdStr st ++ "/fields")

/-- `FdxClient.createJoinImport` (db-scoped). -/
def createJoinImport (st : ClientState) (oracle : Oracle) :
    Except String ServiceResponse × List HttpRequest :=
  if dbIdUnset st then (.ok dbIdRequiredError, [])
  else performRequest oracle "POST" ("/dbs/" ++ dbIdStr st ++ "/join_imports")

/-- `FdxClient.joinImports` (db-scoped). -/
def joinImports (st : ClientState) (oracle : Oracle) :
    Except String ServiceResponse × List HttpRequest :=
  if dbIdUnset st then (.ok dbIdRequiredError, [])
  else performRequest oracle "GET" ("/dbs/" ++ dbIdStr st ++ "/join_imports")

/-- `FdxClient.groups`. -/
def groups (st : ClientState) (oracle : Oracle) (accountId : String) :
    Except String ServiceResponse × List HttpRequest :=
  let _ := st
  performRequest oracle "GET" ("/accounts/" ++ accountId ++ "/groups")

/-- `FdxClient.createGroup`. -/
def createGroup (st : ClientState) (oracle : Oracle) :
    Except String ServiceResponse × List HttpRequest :=
  let _ := st
  performRequest oracle "POST" "/groups"

/-- `FdxClient.moveDbToGroup` — `POST /groups/{payload.group_id}/dbs`. -/
def moveDbToGroup (st : ClientState) (oracle : Oracle) (groupId : String) :
    Except String ServiceResponse × List HttpRequest :=
  let _ := st
  performRequest oracle "POST" ("/groups/" ++ groupId ++ "/dbs")

/-- `FdxClient.createBigCommerceAccount`. -/
def createBigCommerceAccount (st : ClientState) (oracle : Oracle) :
    Except String ServiceResponse × List HttpRequest :=
  let _ := st
  performRequest oracle "POST" "/bigcommerce/account"

/-- `FdxClient.moveDbintoNewDbGroup`. -/
def moveDbintoNewDbGroup (st : ClientState) (oracle : Oracle) (dbId : String) :
    Except String ServiceResponse × List HttpRequest :=
  let _ := st
  performRequest oracle "POST" ("/dbs/" ++ dbId ++ "/move_db_to_db_group")

/-- `FdxClient.addDbVaultEntry`. -/
def addDbVaultEntry (st : ClientState) (oracle : Oracle) (dbId : String) :
    Except String ServiceResponse × List HttpRequest :=
  let _ := st
  performRequest oracle "POST" ("/dbs/" ++ dbId ++ "/vault")

end FdxClient

/-! ## The orchestration layer (`FdxService`) -/

/-- Sequencing of two awaited calls: a raised exception from the first
propagates (keeping the calls already issued in the trace); otherwise
the continuation runs on the envelope and the traces concatenate. -/
def bindCall (x : Except String ServiceResponse × List HttpRequest)
    (k : ServiceResponse → Except String ServiceResponse × List HttpRequest) :
    Except String ServiceResponse × List HttpRequest :=
  match x with
  | (.error m, t) => (.error m, t)
  | (.ok r, t) =>
      match k r with
      | (r2, t2) => (r2, t ++ t2)

/-- Insert-or-overwrite on a JavaScript object literal
(`acc[key] = value`; an existing key keeps its position). -/
def objSet : List (String × Json) → String → Json → List (String × Json)
  | [], k, v => [(k, v)]
  | (k0, v0) :: rest, k, v =>
      if k0 == k then (k0, v) :: rest else (k0, v0) :: objSet rest k v

/-- `result.data?.reduce((acc, account) => { acc[account.account_name] =
account; return acc; }, {}) || {}` — the account list keyed by account
name (an undefined or non-array payload degenerates to the empty
object). -/
def accountsByName (d : Option Json) : Json :=
  match d with
  | some (.arr l) => .obj (l.foldl (fun acc a => objSet acc (optIdToString (a.lookup "account_name")) a) [])
  | _ => .obj []

/-- `e.name === nm` — strict string comparison against the `name`
property. -/
def nameIs (e : Json) (nm : String) : Bool :=
  match e.lookup "name" with
  | some (.str s) => s == nm
  | _ => false

/-- `data?.find((i) => i.name === nm)` on an array payload. -/
def jsonFindByName (d : Option Json) (nm : String) : Option Json :=
  match d with
  | some (.arr l) => l.find? (fun i => nameIs i nm)
  | _ => none

/-- `found || null`. -/
def foundOrNull (o : Option Json) : Json :=
  o.getD .null

/-- `vaultResult.data?.data?.vault_rows || []`. -/
def vaultRows (d : Option Json) : List Json :=
  match jsonIndexOpt (jsonIndexOpt d "data") "vault_rows" with
  | some (.arr l) => l
  | _ => []

namespace FdxService

/-- The fixed account-name prefix literal (`FdxService.ACCOUNT_PREFIX`). -/
def accountNameStart : String := "BC-"

/-- `FdxService.retrieveAccounts`: fetch the accounts and key them by
name, or fail with the `Error getting accounts:` label. -/
def retrieveAccounts (st : ClientState) (oracle : Oracle) :
    Except String ServiceResponse × List HttpRequest :=
  bindCall (FdxClient.accounts st oracle) fun result =>
    if !result.success then
      (.ok (failEnv ("Error getting accounts: " ++ errStr result)), [])
    else
      (.ok (okEnv (some (accountsByName result.data))), [])

/-- `FdxService.createAccount` (the `accountName` travels in the request
body, which the request descriptor does not record). -/
def createAccount (st : ClientState) (oracle : Oracle) (accountName : String) :
    Except String ServiceResponse × List HttpRequest :=
  let _ := accountName
  bindCall (FdxClient.createBigCommerceAccount st oracle) fun result =>
    if !result.success then
      (.ok (failEnv ("Error creating account: " ++ errStr result)), [])
    else
      (.ok (okEnv result.data), [])

/-- `FdxService.getOrCreateAccount`: look the derived account name up in
the fetched collection, returning the found record directly, else create. -/
def getOrCreateAccount (st : ClientState) (oracle : Oracle) (storeId : String) :
    Except String ServiceResponse × List HttpRequest :=
  let accountName := accountNameStart ++ storeId
  bindCall (retrieveAccounts st oracle) fun accountsResult =>
    if !accountsResult.success then (.ok accountsResult, [])
    else
      let account := jsonIndexOpt accountsResult.data accountName
      if jsOptTruthy account then (.ok (okEnv account), [])
      else createAccount st oracle accountName

/-- `FdxService.findGroup`: fetch the account's groups and return the
first whose name starts with the account prefix (the `data` field of the
success envelope is `undefined` when no group matches). -/
def findGroup (st : ClientState) (oracle : Oracle) (accountId : String) :
    Except String ServiceResponse × List HttpRequest :=
  bindCall (FdxClient.groups st oracle accountId) fun result =>
    if !result.success then
      (.ok (failEnv ("Error getting db groups: " ++ errStr result)), [])
    else
      let found :=
        match result.data with
        | some (.arr l) => l.find? (fun g =>
            match g.lookup "name" with
            | some (.str s) => s.startsWith accountNameStart
            | _ => false)
        | _ => none
      (.ok (okEnv found), [])

/-- `FdxService.moveDbToGroup`: when a prefixed group exists, move
(database id 0!) into it; otherwise only create a group. -/
def moveDbToGroup (st : ClientState) (oracle : Oracle) (accountId accountName : String) :
    Except String ServiceResponse × List HttpRequest :=
  let _ := accountName
  bindCall (findGroup st oracle accountId) fun existingGroupResult =>
    if !existingGroupResult.success then (.ok existingGroupResult, [])
    else
      bindCall
        (if jsOptTruthy existingGroupResult.data then
          FdxClient.moveDbToGroup st oracle
            (optIdToString (jsonIndexOpt existingGroupResult.data "id"))
        else
          FdxClient.createGroup st oracle)
        fun result =>
          if !result.success then
            (.ok (failEnv ("Error moving db to group: " ++ errStr result)), [])
          else
            (.ok (okEnv result.data), [])

/-- `FdxService.deleteOldEntry`: delete the legacy
`BigCommerce Credentials` vault entry when present (`none` models the
`null` return when there is nothing to delete). -/
def deleteOldEntry (st : ClientState) (oracle : Oracle) (entries : List Json) :
    Except String (Option ServiceResponse) × List HttpRequest :=
  match entries.find? (fun e => nameIs e "BigCommerce Credentials") with
  | none => (.ok none, [])
  | some oldEntry =>
      match FdxClient.deleteVault st oracle (optIdToString (oldEntry.lookup "id")) with
      | (.error m, t) => (.error m, t)
      | (.ok result, t) =>
          if !result.success then
            (.ok (some (failEnv ("Error deleting vault: " ++ errStr result))), t)
          else
            (.ok (some (okEnv result.data)), t)

/-- `FdxService.createOrUpdateVaultEntry`: update the `bc_credentials`
entry when one exists (returning the update response body), else create
it. -/
def createOrUpdateVaultEntry (st : ClientState) (oracle : Oracle) (entries : List Json) :
    Except String ServiceResponse × List HttpRequest :=
  bindCall
    (match entries.find? (fun e => nameIs e "bc_credentials") with
     | some entry => FdxClient.updateVault st oracle (optIdToString (entry.lookup "id"))
     | none => FdxClient.createVault st oracle)
    fun result =>
      if !result.success then
        (.ok (failEnv ("Error creating vault: " ++ jsOrString result.error "Unknown error")), [])
      else
        (.ok (okEnv result.data), [])

/-- `FdxService.updateVaultEntries`: fetch the vault, remove the legacy
entry when present (short-circuiting on a delete failure), then
create-or-update the `bc_credentials` entry. -/
def updateVaultEntries (st : ClientState) (oracle : Oracle) :
    Except String ServiceResponse × List HttpRequest :=
  match FdxClient.vault st oracle with
  | (.error m, t) => (.error m, t)
  | (.ok vaultResult, t) =>
      if !vaultResult.success then
        (.ok (failEnv ("Error getting vaults: " ++ errStr vaultResult)), t)
      else
        let entries := vaultRows vaultResult.data
        match deleteOldEntry st oracle entries with
        | (.error m, t2) => (.error m, t ++ t2)
        | (.ok deleteResult, t2) =>
            match deleteResult with
            | some dr =>
                if !dr.success then (.ok dr, t ++ t2)
                else
                  match createOrUpdateVaultEntry st oracle entries with
                  | (r3, t3) => (r3, t ++ t2 ++ t3)
            | none =>
                match createOrUpdateVaultEntry st oracle entries with
                | (r3, t3) => (r3, t ++ t2 ++ t3)

/-- `FdxService.retrieveImport`: fetch the imports and select the one
named `BigCommerceImport` (or `null`). -/
def retrieveImport (st : ClientState) (oracle : Oracle) :
    Except String ServiceResponse × List HttpRequest :=
  bindCall (FdxClient.imports st oracle) fun importsResult =>
    if !importsResult.success then
      (.ok (failEnv ("Error getting imports: " ++ errStr importsResult)), [])
    else
      (.ok (okEnv (some (foundOrNull (jsonFindByName importsResult.data "BigCommerceImport")))), [])

/-- `FdxService.createOrUpdateImport`: when the fetch succeeded *and*
found a truthy record, update in place and return the pre-existing
record; in every other case — including a failed fetch — fall through to
the create call. -/
def createOrUpdateImport (st : ClientState) (oracle : Oracle) :
    Except String ServiceResponse × List HttpRequest :=
  bindCall (retrieveImport st oracle) fun existingImport =>
    if existingImport.success && jsOptTruthy existingImport.data then
      bindCall
        (FdxClient.updateImport st oracle (optIdToString (jsonIndexOpt existingImport.data "id")))
        fun result =>
          if !result.success then
            (.ok (failEnv ("Error updating import: " ++ errStr result)), [])
          else
            (.ok (okEnv existingImport.data), [])
    else
      bindCall (FdxClient.createImport st oracle) fun result =>
        if !result.success then
          (.ok (failEnv ("Error creating import: " ++ errStr result)), [])
        else
          (.ok (okEnv result.data), [])

/-- `FdxService.getExistingExport`: fetch the exports and select the one
named `Export Google` (or `null`). -/
def getExistingExport (st : ClientState) (oracle : Oracle) :
    Except String ServiceResponse × List HttpRequest :=
  bindCall (FdxClient.exports st oracle) fun exportsResult =>
    if !exportsResult.success then
      (.ok (failEnv ("Error getting exports: " ++ errStr exportsResult)), [])
    else
      (.ok (okEnv (some (foundOrNull (jsonFindByName exportsResult.data "Export Google")))), [])

/-- `FdxService.handleExistingExport`: update in place and return the
pre-existing record when one was found, else create. -/
def handleExistingExport (st : ClientState) (oracle : Oracle) (existingExport : Option Json) :
    Except String ServiceResponse × List HttpRequest :=
  if jsOptTruthy existingExport then
    bindCall
      (FdxClient.updateExport st oracle (optIdToString (jsonIndexOpt existingExport "id")))
      fun result =>
        if !result.success then
          (.ok (failEnv ("Error updating exports: " ++ errStr result)), [])
        else
          (.ok (okEnv existingExport), [])
  else
    bindCall (FdxClient.createExport st oracle) fun result =>
      if !result.success then
        (.ok (failEnv ("Error creating exports: " ++ errStr result)), [])
      else
        (.ok (okEnv result.data), [])

/-- `FdxService.runExportSchedule`. -/
def runExportSchedule (st : ClientState) (oracle : Oracle) (exportData : Option Json) :
    Except String ServiceResponse × List HttpRequest :=
  bindCall
    (FdxClient.scheduleExport st oracle (optIdToString (jsonIndexOpt exportData "id")))
    fun result =>
      if !result.success then
        (.ok (failEnv "Error setting running export schedule in FDX"), [])
      else
        (.ok (okEnv exportData), [])

/-- `FdxService.createOrUpdateExport` (`hasTimeSlot` records whether the
optional schedule argument was supplied). -/
def createOrUpdateExport (st : ClientState) (oracle : Oracle) (hasTimeSlot : Bool) :
    Except String ServiceResponse × List HttpRequest :=
  bindCall (getExistingExport st oracle) fun currentExportResponse =>
    if !currentExportResponse.success then
      (.ok (failEnv ("Getting existing export: " ++ errStr currentExportResponse)), [])
    else
      bindCall (handleExistingExport st oracle currentExportResponse.data) fun exportResult =>
        if !exportResult.success then
          (.ok (failEnv ("Creating or updating exports: " ++ errStr exportResult)), [])
        else
          if hasTimeSlot then runExportSchedule st oracle exportResult.data
          else (.ok exportResult, [])

/-! ### The composite workflow `setupBigCommerceIntegration`

The workflow is a fixed sequence of up to eight dependent steps with
early exit on the first failure envelope and one outermost catch-all.
It is embedded here as a chain of step functions (split at the step
boundaries of the single source function), threading the mutable client
state and the trace of issued calls, in an exception monad whose error
case is a raised JavaScript exception. -/

/-- JavaScript truthiness of an optional string parameter (absent and
empty both falsy, so an empty optional parameter skips its step). -/
def jsTruthyOptStr : Option String → Bool
  | none => false
  | some s => !(s == "")

/-- The caller-supplied setup parameters (`BigCommerceSetupParams`);
`importSchedule` records whether the optional schedule object was
supplied (any supplied object is truthy). -/
structure SetupParams where
  accountName : String
  storeHash : String
  accessToken : String
  clientId : Option String
  channelId : String
  userEmail : Option String
  storeUrl : Option String
  dbName : Option String
  groupName : Option String
  vaultEntryName : Option String
  importSchedule : Bool
  buildTemplate : Option String

/-- The success payload of the workflow: the identifiers produced by
the intermediate steps (fields that are `undefined` in the source
object are omitted here). -/
def setupResultJson (aid did iid vaultId : Option Json) (userEmail : Option String) : Json :=
  .obj ([("success", Json.bool true),
         ("accountId", aid.getD .null),
         ("dbId", did.getD .null),
         ("importId", iid.getD .null)]
        ++ (match vaultId with | some v => [("vaultEntryId", v)] | none => [])
        ++ (match userEmail with | some e => [("primaryUserEmail", Json.str e)] | none => []))

/-- Step 8 of the workflow: optionally apply the build template
(database-scoped; the import id travels in the request body), then
return the structured success summary. -/
def setupStep8 (st : ClientState) (oracle : Oracle) (params : SetupParams)
    (aid did vaultId iid : Option Json) :
    Except String ServiceResponse × ClientState × List HttpRequest :=
  if jsTruthyOptStr params.buildTemplate then
    match FdxClient.applyAutomateBuildTemplate st oracle with
    | (.error m, t) => (.error m, st, t)
    | (.ok buildResult, t) =>
        if !buildResult.success then
          (.ok (failEnv ("Failed to apply build template: " ++ errStr buildResult)), st, t)
        else
          (.ok (okEnv (some (setupResultJson aid did iid vaultId params.userEmail))), st, t)
  else
    (.ok (okEnv (some (setupResultJson aid did iid vaultId params.userEmail))), st, [])

/-- Steps 6–7 of the workflow: create the import configuration
(database-scoped), require a truthy import id, optionally set the
schedule, then continue with step 8. -/
def setupStep6 (st : ClientState) (oracle : Oracle) (params : SetupParams)
    (aid did vaultId : Option Json) :
    Except String ServiceResponse × ClientState × List HttpRequest :=
  match FdxClient.createImport st oracle with
  | (.error m, t) => (.error m, st, t)
  | (.ok importResult, t) =>
      let iid := jsonIndexOpt importResult.data "id"
      if !(importResult.success && jsOptTruthy iid) then
        (.ok (failEnv ("Failed to create import: " ++ errStr importResult)), st, t)
      else
        let importId := optIdToString iid
        if params.importSchedule then
          match FdxClient.updateImportSchedule st oracle importId with
          | (.error m, t2) => (.error m, st, t ++ t2)
          | (.ok scheduleResult, t2) =>
              if !scheduleResult.success then
                (.ok (failEnv ("Failed to update import schedule: " ++ errStr scheduleResult)),
                 st, t ++ t2)
              else
                match setupStep8 st oracle params aid did vaultId iid with
                | (r, st2, t3) => (r, st2, t ++ t2 ++ t3)
        else
          match setupStep8 st oracle params aid did vaultId iid with
          | (r, st2, t3) => (r, st2, t ++ t3)

/-- Step 5 of the workflow: store the credentials in a vault entry
scoped to the new database, then continue. -/
def setupStep5 (st : ClientState) (oracle : Oracle) (params : SetupParams)
    (aid did : Option Json) (dbId : String) :
    Except String ServiceResponse × ClientState × List HttpRequest :=
  match FdxClient.addDbVaultEntry st oracle dbId with
  | (.error m, t) => (.error m, st, t)
  | (.ok vaultResult, t) =>
      if !vaultResult.success then
        (.ok (failEnv ("Failed to create vault entry: " ++ errStr vaultResult)), st, t)
      else
        let vaultId := jsonIndexOpt (jsonIndexOpt vaultResult.data "data") "new_row_id"
        match setupStep6 st oracle params aid did vaultId with
        | (r, st2, t2) => (r, st2, t ++ t2)

/-- Step 4 of the workflow: optionally move the database into a (new)
group, then continue. -/
def setupStep4 (st : ClientState) (oracle : Oracle) (params : SetupParams)
    (aid did : Option Json) (dbId : String) :
    Except String ServiceResponse × ClientState × List HttpRequest :=
  if jsTruthyOptStr params.groupName then
    match FdxClient.moveDbintoNewDbGroup st oracle dbId with
    | (.error m, t) => (.error m, st, t)
    | (.ok groupResult, t) =>
        if !groupResult.success then
          (.ok (failEnv ("Failed to move database to group: " ++ errStr groupResult)), st, t)
        else
          match setupStep5 st oracle params aid did dbId with
          | (r, st2, t2) => (r, st2, t ++ t2)
  else
    setupStep5 st oracle params aid did dbId

/-- Step 3 of the workflow: create the database, require a truthy
database id, and — the one session-context mutation of the whole
workflow — set the client's active-database identifier to it before
continuing. -/
def setupStep3 (st : ClientState) (oracle : Oracle) (params : SetupParams)
    (accountId : String) (aid : Option Json) :
    Except String ServiceResponse × ClientState × List HttpRequest :=
  match FdxClient.createDb st oracle accountId with
  | (.error m, t) => (.error m, st, t)
  | (.ok dbResult, t) =>
      let did := jsonIndexOpt dbResult.data "id"
      if !(dbResult.success && jsOptTruthy did) then
        (.ok (failEnv ("Failed to create database: " ++ errStr dbResult)), st, t)
      else
        let dbId := optIdToString did
        let st2 := setDbId st dbId
        match setupStep4 st2 oracle params aid did dbId with
        | (r, st3, t2) => (r, st3, t ++ t2)

/-- Steps 1–2 and the body of `FdxService.setupBigCommerceIntegration`
before the catch-all: create the vendor account, require a truthy
account id, optionally invite the primary user, then continue with the
database steps.  The error case of the `Except` is a raised exception
that has not yet reached the outermost catch. -/
def setupInner (st : ClientState) (oracle : Oracle) (params : SetupParams) :
    Except String ServiceResponse × ClientState × List HttpRequest :=
  match FdxClient.createBigCommerceAccount st oracle with
  | (.error m, t) => (.error m, st, t)
  | (.ok accountResult, t) =>
      let aid := jsonIndexOpt accountResult.data "id"
      if !(accountResult.success && jsOptTruthy aid) then
        (.ok (failEnv ("Failed to create account: " ++ errStr accountResult)), st, t)
      else
        let accountId := optIdToString aid
        if jsTruthyOptStr params.userEmail then
          match FdxClient.invitePrimaryUser st oracle accountId with
          | (.error m, t2) => (.error m, st, t ++ t2)
          | (.ok inviteResult, t2) =>
              if !inviteResult.success then
                (.ok (failEnv ("Failed to invite user: " ++ errStr inviteResult)), st, t ++ t2)
              else
                match setupStep3 st oracle params accountId aid with
                | (r, st2, t3) => (r, st2, t ++ t2 ++ t3)
        else
          match setupStep3 st oracle params accountId aid with
          | (r, st2, t3) => (r, st2, t ++ t3)

/-- `FdxService.setupBigCommerceIntegration`: the whole step sequence
wrapped in the outermost catch-all, which converts a raised exception
into a failure envelope with the fixed `BigCommerce setup failed:`
prefix plus the exception's message.  Session-context mutations made
before the exception persist. -/
def setupBigCommerceIntegration (st : ClientState) (oracle : Oracle) (params : SetupParams) :
    ServiceResponse × ClientState × List HttpRequest :=
  match setupInner st oracle params with
  | (.ok env, st2, t) => (env, st2, t)
  | (.error m, st2, t) => (failEnv ("BigCommerce setup failed: " ++ m), st2, t)

end FdxService

/-! ## The BigCommerce preprocessor URL builder

`FdxClient.generateBigCommercePreprocessorUrl` (`FdxClient.ts` lines
674–752).  Strings are modelled as lists of Unicode code points so that
the percent-encoding of `encodeURIComponent` and of the WHATWG
`application/x-www-form-urlencoded` serializer (what
`URLSearchParams.toString` applies to every stored key and value) can
be stated byte-exactly. -/

/-- The code points of a string literal. -/
def Str (s : String) : List Nat :=
  s.data.map Char.toNat

/-- The characters `encodeURIComponent` leaves unescaped:
`A–Z a–z 0–9 - _ . ! ~ * ' ( )`. -/
def uriUnreserved (c : Nat) : Bool :=
  (65 ≤ c && c ≤ 90) || (97 ≤ c && c ≤ 122) || (48 ≤ c && c ≤ 57) ||
  c == 45 || c == 95 || c == 46 || c == 33 || c == 126 || c == 42 ||
  c == 39 || c == 40 || c == 41

/-- The characters the `application/x-www-form-urlencoded` serializer
leaves unescaped: `A–Z a–z 0–9 * - . _` (space becomes `+`). -/
def formSafe (c : Nat) : Bool :=
  (65 ≤ c && c ≤ 90) || (97 ≤ c && c ≤ 122) || (48 ≤ c && c ≤ 57) ||
  c == 42 || c == 45 || c == 46 || c == 95

/-- UTF-8 encoding of one code point. -/
def utf8Bytes (n : Nat) : List Nat :=
  if n < 128 then [n]
  else if n < 2048 then [192 + n / 64, 128 + n % 64]
  else if n < 65536 then [224 + n / 4096, 128 + (n / 64) % 64, 128 + n % 64]
  else [240 + n / 262144, 128 + (n / 4096) % 64, 128 + (n / 64) % 64, 128 + n % 64]

/-- Uppercase hexadecimal digit (as a code point). -/
def hexDigit (x : Nat) : Nat :=
  if x < 10 then 48 + x else 55 + x

/-- `%XX` percent-escape of one byte. -/
def pctByte (b : Nat) : List Nat :=
  [37, hexDigit (b / 16), hexDigit (b % 16)]

/-- `encodeURIComponent`: unreserved code points pass through, every
other code point is UTF-8 encoded and each byte percent-escaped. -/
def encodeURIComponent (s : List Nat) : List Nat :=
  s.flatMap fun c =>
    if uriUnreserved c then [c] else (utf8Bytes c).flatMap pctByte

/-- The urlencoded serializer applied by `URLSearchParams.toString` to
each stored key and value: space becomes `+`, its safe set passes
through, everything else is percent-escaped — in particular a stored
`%` is re-escaped to `%25`. -/
def formEncodeValue (s : List Nat) : List Nat :=
  s.flatMap fun c =>
    if c == 32 then [43]
    else if formSafe c then [c]
    else (utf8Bytes c).flatMap pctByte

/-- Value of one hexadecimal digit (0 for a non-digit, which well-formed
input never hits). -/
def hexVal (c : Nat) : Nat :=
  if 48 ≤ c && c ≤ 57 then c - 48
  else if 65 ≤ c && c ≤ 70 then c - 55
  else if 97 ≤ c && c ≤ 102 then c - 87
  else 0

/-- Percent-decoding pass: each `%XX` triple becomes its byte, every
other code point passes through. -/
def percentDecode : List Nat → List Nat
  | [] => []
  | [c] => [c]
  | [c, d] => if c = 37 then [c, d] else c :: percentDecode [d]
  | c :: d1 :: d2 :: rest =>
      if c = 37 then (16 * hexVal d1 + hexVal d2) :: percentDecode rest
      else c :: percentDecode (d1 :: d2 :: rest)

/-- UTF-8 decoding pass on the byte sequence produced by percent
decoding (bytes below the lead-byte range pass through, which on the
ASCII strings this development decodes is exact). -/
def utf8Decode : List Nat → List Nat
  | [] => []
  | [b] => [b]
  | [b, b2] =>
      if b < 192 then b :: utf8Decode [b2]
      else if b < 224 then [(b - 192) * 64 + (b2 - 128)]
      else [b, b2]
  | [b, b2, b3] =>
      if b < 192 then b :: utf8Decode [b2, b3]
      else if b < 224 then ((b - 192) * 64 + (b2 - 128)) :: utf8Decode [b3]
      else if b < 240 then [(b - 224) * 4096 + (b2 - 128) * 64 + (b3 - 128)]
      else [b, b2, b3]
  | b :: b2 :: b3 :: b4 :: rest =>
      if b < 192 then b :: utf8Decode (b2 :: b3 :: b4 :: rest)
      else if b < 224 then ((b - 192) * 64 + (b2 - 128)) :: utf8Decode (b3 :: b4 :: rest)
      else if b < 240 then
        ((b - 224) * 4096 + (b2 - 128) * 64 + (b3 - 128)) :: utf8Decode (b4 :: rest)
      else
        ((b - 240) * 262144 + (b2 - 128) * 4096 + (b3 - 128) * 64 + (b4 - 128)) ::
          utf8Decode rest

/-- `decodeURIComponent`: percent-decode, then UTF-8 decode. -/
def decodeURIComponent (s : List Nat) : List Nat :=
  utf8Decode (percentDecode s)

/-- A JavaScript scalar parameter value as the builder sees it. -/
inductive JsScalar where
  | str (s : List Nat) : JsScalar
  | num (n : Int) : JsScalar
  | bool (b : Bool) : JsScalar
  | null : JsScalar
  | undef : JsScalar

/-- `value !== undefined && value !== null`. -/
def jsScalarDefined : JsScalar → Bool
  | .null => false
  | .undef => false
  | _ => true

/-- `String(value)`. -/
def jsScalarToString : JsScalar → List Nat
  | .str s => s
  | .num n => Str (toString n)
  | .bool b => Str (cond b "true" "false")
  | .null => Str "null"
  | .undef => Str "undefined"

/-- A `connection_info` entry: a scalar field or a nested object of
scalar fields (`filters`, `price_list`, `location_inventory`). -/
inductive JsEntry where
  | scalar (v : JsScalar) : JsEntry
  | obj (fields : List (List Nat × JsScalar)) : JsEntry

/-- The builder's parameter object: `connection_info` entries in
iteration order, plus the optional `file_info` object. -/
structure UrlParams where
  connection_info : List (List Nat × JsEntry)
  file_info : Option (List (List Nat × JsScalar))

/-- `URLSearchParams.set`: overwrite the value of an existing key in
place, else append (the stored keys in this builder are pairwise
distinct). -/
def spSet : List (List Nat × List Nat) → List Nat → List Nat → List (List Nat × List Nat)
  | [], k, v => [(k, v)]
  | (k0, v0) :: rest, k, v =>
      if k0 == k then (k0, v) :: rest else (k0, v0) :: spSet rest k v

/-- The builder's `addParam` helper: skip `undefined`/`null`, else store
`prefix[key]` ↦ the value double-encoded with `encodeURIComponent`. -/
def addParam (sp : List (List Nat × List Nat)) (pre key : List Nat) (v : JsScalar) :
    List (List Nat × List Nat) :=
  if jsScalarDefined v then
    spSet sp (pre ++ Str "[" ++ key ++ Str "]")
      (encodeURIComponent (encodeURIComponent (jsScalarToString v)))
  else sp

/-- The builder's `addNestedParam` helper: as `addParam` with key
`prefix[key][subKey]`. -/
def addNestedParam (sp : List (List Nat × List Nat)) (pre key subKey : List Nat) (v : JsScalar) :
    List (List Nat × List Nat) :=
  if jsScalarDefined v then
    spSet sp (pre ++ Str "[" ++ key ++ Str "][" ++ subKey ++ Str "]")
      (encodeURIComponent (encodeURIComponent (jsScalarToString v)))
  else sp

/-- The `URLSearchParams` contents assembled by
`generateBigCommercePreprocessorUrl`: the two fixed literals, the
defined `connection_info` fields (nested objects flattened to
sub-keys), then the defined `file_info` fields. -/
def genSearchParams (params : UrlParams) : List (List Nat × List Nat) :=
  let sp := addParam [] (Str "connection_info") (Str "client") (.str (Str "bigcommerce"))
  let sp := addParam sp (Str "connection_info") (Str "protocol") (.str (Str "api"))
  let sp := params.connection_info.foldl (fun sp kv =>
    match kv.2 with
    | .scalar v => if jsScalarDefined v then addParam sp (Str "connection_info") kv.1 v else sp
    | .obj fields =>
        fields.foldl (fun sp sub =>
          if jsScalarDefined sub.2 then
            addNestedParam sp (Str "connection_info") kv.1 sub.1 sub.2
          else sp) sp) sp
  match params.file_info with
  | some fi =>
      fi.foldl (fun sp kv =>
        if jsScalarDefined kv.2 then addParam sp (Str "file_info") kv.1 kv.2 else sp) sp
  | none => sp

/-- One `key=value` segment of `URLSearchParams.toString`: both sides
go through the urlencoded serializer. -/
def serializePair (kv : List Nat × List Nat) : List Nat :=
  formEncodeValue kv.1 ++ Str "=" ++ formEncodeValue kv.2

/-- `URLSearchParams.toString`: the serialized segments joined with
`&`. -/
def serializeParams : List (List Nat × List Nat) → List Nat
  | [] => []
  | [kv] => serializePair kv
  | kv :: rest => serializePair kv ++ Str "&" ++ serializeParams rest

/-- `FdxClient.generateBigCommercePreprocessorUrl`: the fixed base URL,
`?`, and the serialized search parameters. -/
def generateBigCommercePreprocessorUrl (params : UrlParams) : List Nat :=
  Str "https://preprocess.proxy.feedonomics.com/preprocess/run_preprocess.php" ++
    Str "?" ++ serializeParams (genSearchParams params)

/-! Query-string inspection used to state facts about the produced URL
itself: split the part after `?` on `&`, and each segment at its first
`=`. -/

/-- Everything after the first `?`. -/
def afterQuestionMark : List Nat → List Nat
  | [] => []
  | c :: rest => if c = 63 then rest else afterQuestionMark rest

/-- Split on a separator code point. -/
def splitOnByte (sep : Nat) : List Nat → List (List Nat)
  | [] => [[]]
  | c :: rest =>
      if c = sep then [] :: splitOnByte sep rest
      else
        match splitOnByte sep rest with
        | [] => [[c]]
        | g :: gs => (c :: g) :: gs

/-- A query segment as a (raw key, raw value) pair. -/
def pairOfSegment (seg : List Nat) : List Nat × List Nat :=
  (seg.takeWhile (fun c => !(c == 61)), (seg.dropWhile (fun c => !(c == 61))).drop 1)

/-- The raw (still-serialized) value a given raw key maps to in the
query string of a URL. -/
def rawQueryValue (url : List Nat) (encKey : List Nat) : Option (List Nat) :=
  ((splitOnByte 38 (afterQuestionMark url)).map pairOfSegment).lookup encKey

/-- Builder input whose `access_token` is an arbitrary string, used to
state the round-trip property of the produced URL. -/
def tokenParams (v : List Nat) : UrlParams :=
  { connection_info := [(Str "access_token", .scalar (.str v))], file_info := none }

/-- The envelope invariant of the specification: success implies no
error field, failure implies no payload and an error message present. -/
def envInv (r : ServiceResponse) : Prop :=
  (r.success = true → r.error = none) ∧
  (r.success = false → r.data = none ∧ r.error ≠ none)

/-- The envelope invariant for a call that may also raise: every
returned (non-raised) envelope satisfies `envInv`. -/
def callInv (x : Except String ServiceResponse × List HttpRequest) : Prop :=
  match x.1 with
  | .ok r => envInv r
  | .error _ => True

/-- The envelope invariant for a state-threading workflow result. -/
def setupCallInv (x : Except String ServiceResponse × ClientState × List HttpRequest) : Prop :=
  match x.1 with
  | .ok r => envInv r
  | .error _ => True

/-- `ftpResponse.data && ftpResponse.data.length > 0` — a defined value
with positive length (an array with elements, or a non-empty string). -/
def jsHasLength : Option Json → Bool
  | some (.arr l) => !l.isEmpty
  | some (.str s) => !(s == "")
  | _ => false

namespace FdxClient

/-- `FdxClient.dbs`. -/
def dbs (st : ClientState) (oracle : Oracle) (accountId : String) :
    Except String ServiceResponse × List HttpRequest :=
  let _ := st
  performRequest oracle "GET" ("/accounts/" ++ accountId ++ "/dbs")

/-- `FdxClient.login`. -/
def login (st : ClientState) (oracle : Oracle) :
    Except String ServiceResponse × List HttpRequest :=
  let _ := st
  performRequest oracle "POST" "/login"

/-- `FdxClient.moveDbFromSourceToTargetDbGroup`. -/
def moveDbFromSourceToTargetDbGroup (st : ClientState) (oracle : Oracle) (dbId : String) :
    Except String ServiceResponse × List HttpRequest :=
  let _ := st
  performRequest oracle "POST" ("/dbs/" ++ dbId ++ "/move_db_to_db_group")

/-- `FdxClient.dbFields`. -/
def dbFields (st : ClientState) (oracle : Oracle) (dbId : String) :
    Except String ServiceResponse × List HttpRequest :=
  let _ := st
  performRequest oracle "GET" ("/dbs/" ++ dbId ++ "/fields")

/-- `FdxClient.deleteDbField`. -/
def deleteDbField (st : ClientState) (oracle : Oracle) (dbId fieldId : String) :
    Except String ServiceResponse × List HttpRequest :=
  let _ := st
  performRequest oracle "DELETE" ("/dbs/" ++ dbId ++ "/fields/" ++ fieldId)

end FdxClient

namespace FdxService

/-- `FdxService.createDb`. -/
def createDb (st : ClientState) (oracle : Oracle) (accountId : String) :
    Except String ServiceResponse × List HttpRequest :=
  bindCall (FdxClient.createDb st oracle accountId) fun result =>
    if !result.success then
      (.ok (failEnv ("Error creating db: " ++ errStr result)), [])
    else
      (.ok (okEnv result.data), [])

/-- `FdxService.deleteDb`. -/
def deleteDb (st : ClientState) (oracle : Oracle) (dbId : String) :
    Except String ServiceResponse × List HttpRequest :=
  bindCall (FdxClient.deleteDb st oracle dbId) fun result =>
    if !result.success then
      (.ok (failEnv ("Error deleting db: " ++ errStr result)), [])
    else
      (.ok (okEnv result.data), [])

/-- `FdxService.getFtpCredentials`: fetch the FTP accounts; a non-empty
collection is returned directly, else one is created. -/
def getFtpCredentials (st : ClientState) (oracle : Oracle) :
    Except String ServiceResponse × List HttpRequest :=
  bindCall (FdxClient.ftpAccounts st oracle) fun ftpResponse =>
    if !ftpResponse.success then
      (.ok (failEnv ("Error getting credentials: " ++ errStr ftpResponse)), [])
    else if jsHasLength ftpResponse.data then
      (.ok (okEnv ftpResponse.data), [])
    else
      bindCall (FdxClient.createFtpAccounts st oracle) fun createFtpResponse =>
        if !createFtpResponse.success then
          (.ok (failEnv ("Error creating FTP credentials: " ++ errStr createFtpResponse)), [])
        else
          (.ok (okEnv createFtpResponse.data), [])

/-- `FdxService.createJoinImport`. -/
def createJoinImport (st : ClientState) (oracle : Oracle) :
    Except String ServiceResponse × List HttpRequest :=
  bindCall (FdxClient.createJoinImport st oracle) fun result =>
    if !result.success then
      (.ok (failEnv ("Error creating join import: " ++ errStr result)), [])
    else
      (.ok (okEnv result.data), [])

/-- `FdxService.updateImportSchedule`. -/
def updateImportSchedule (st : ClientState) (oracle : Oracle) (importId : String) :
    Except String ServiceResponse × List HttpRequest :=
  bindCall (FdxClient.updateImportSchedule st oracle importId) fun result =>
    if !result.success then
      (.ok (failEnv ("Error updating import schedule: " ++ errStr result)), [])
    else
      (.ok (okEnv result.data), [])

/-- The loop of `FdxService.createTransformers`: one create call per
supplied transformer config (the configs travel in request bodies),
collecting the payloads and short-circuiting on the first failure. -/
def createTransformersLoop (st : ClientState) (oracle : Oracle) :
    Nat → List Json → Except String ServiceResponse × List HttpRequest
  | 0, acc =>
      (.ok { success := true, data := some (.arr acc.reverse), error := none, status := none },
       [])
  | n + 1, acc =>
      match FdxClient.createTransformer st oracle with
      | (.error m, t) => (.error m, t)
      | (.ok result, t) =>
          if !result.success then
            (.ok (failEnv ("Error creating transformer: " ++ errStr result)), t)
          else
            match createTransformersLoop st oracle n (result.data.getD .null :: acc) with
            | (r, t2) => (r, t ++ t2)

/-- `FdxService.createTransformers` over `n` transformer configs. -/
def createTransformers (st : ClientState) (oracle : Oracle) (n : Nat) :
    Except String ServiceResponse × List HttpRequest :=
  createTransformersLoop st oracle n []

/-- The loop of `FdxService.updateDbFields`, analogous to
`createTransformersLoop`. -/
def updateDbFieldsLoop (st : ClientState) (oracle : Oracle) :
    Nat → List Json → Except String ServiceResponse × List HttpRequest
  | 0, acc =>
      (.ok { success := true, data := some (.arr acc.reverse), error := none, status := none },
       [])
  | n + 1, acc =>
      match FdxClient.updateDbFields st oracle with
      | (.error m, t) => (.error m, t)
      | (.ok result, t) =>
          if !result.success then
            (.ok (failEnv ("Error updating db fields: " ++ errStr result)), t)
          else
            match updateDbFieldsLoop st oracle n (result.data.getD .null :: acc) with
            | (r, t2) => (r, t ++ t2)

/-- `FdxService.updateDbFields` over `n` field configs. -/
def updateDbFields (st : ClientState) (oracle : Oracle) (n : Nat) :
    Except String ServiceResponse × List HttpRequest :=
  updateDbFieldsLoop st oracle n []

/-- `FdxService.runImport`: the database id comes from `getDbId` with a
distinct local error message. -/
def runImport (st : ClientState) (oracle : Oracle) (importId : String) :
    Except String ServiceResponse × List HttpRequest :=
  if dbIdUnset st then (.ok (failEnv "No database selected"), [])
  else
    bindCall (performRequest oracle "POST"
        ("/dbs/" ++ dbIdStr st ++ "/imports/" ++ importId ++ "/run")) fun result =>
      if !result.success then
        (.ok (failEnv ("Error running import: " ++ errStr result)), [])
      else
        (.ok (okEnv result.data), [])

/-- `FdxService.runExport`. -/
def runExport (st : ClientState) (oracle : Oracle) (exportId : String) :
    Except String ServiceResponse × List HttpRequest :=
  if dbIdUnset st then (.ok (failEnv "No database selected"), [])
  else
    bindCall (performRequest oracle "POST"
        ("/dbs/" ++ dbIdStr st ++ "/exports/" ++ exportId ++ "/run")) fun result =>
      if !result.success then
        (.ok (failEnv ("Error running export: " ++ errStr result)), [])
      else
        (.ok (okEnv result.data), [])

end FdxService

/-- A concrete session whose active database is `7`. -/
def stDb7 : ClientState :=
  { apiToken := "t", dbId := some "7",
    baseUrl := "https://meta.feedonomics.com/api.php", timeout := 60000, verbose := false }

/-- A concrete remote in which fetching the import collection fails with
a network error while creating an import succeeds. -/
def importsFetchFailOracle : Oracle := fun req =>
  if req.method == "GET" then .wire (.networkError "boom")
  else .wire (.response { status := 201, body := .obj [("id", .num 1)] })

/-- A concrete remote that succeeds on `PUT` requests. -/
def vaultUpdateOracle : Oracle := fun req =>
  if req.method == "PUT" then
    .wire (.response { status := 200, body := .obj [("updated", .bool true)] })
  else .wire (.networkError "x")

/-- A concrete pre-existing `bc_credentials` vault entry. -/
def bcEntry : Json :=
  .obj [("name", .str "bc_credentials"), ("id", .num 3)]

/-- A concrete remote with no existing groups and a successful
create-group call. -/
def groupsEmptyOracle : Oracle := fun req =>
  if req.method == "GET" then .wire (.response { status := 200, body := .arr [] })
  else .wire (.response { status := 201, body := .obj [("id", .num 5)] })

/-- A concrete remote whose every call answers HTTP 500 with a server
message. -/
def accountFailOracle : Oracle := fun _ =>
  .wire (.response { status := 500, body := .obj [("message", .str "nope")] })

/-- Concrete minimal setup parameters: every optional step skipped. -/
def setupParamsMin : FdxService.SetupParams :=
  { accountName := "A", storeHash := "h", accessToken := "tok", clientId := none,
    channelId := "1", userEmail := none, storeUrl := none, dbName := none,
    groupName := none, vaultEntryName := none, importSchedule := false,
    buildTemplate := none }

/-- A concrete remote whose first call raises instead of returning. -/
def throwingOracle : Oracle := fun _ => .throwErr "Unexpected error"

/-- A concrete remote for the persistence witness: account creation and
database creation succeed (ids 9 and 5), every later call fails. -/
def dbCreatedThenFailOracle : Oracle := fun req =>
  if req.url == "/bigcommerce/account" then
    .wire (.response { status := 201, body := .obj [("id", .num 9)] })
  else if req.url == "/accounts/9/dbs" then
    .wire (.response { status := 201, body := .obj [("id", .num 5)] })
  else .wire (.networkError "later step fails")

/-! ## Round-trip lemmas for the percent-encoding pipeline -/

theorem hexVal_hexDigit (x : Nat) (h : x < 16) : hexVal (hexDigit x) = x := by
  unfold hexVal hexDigit
  split_ifs <;> simp_all <;> omega

theorem utf8Bytes_mem_lt (n : Nat) (h : n < 1114112) : ∀ b ∈ utf8Bytes n, b < 256 := by
  intro b hb
  unfold utf8Bytes at hb
  split_ifs at hb <;> simp_all <;> omega

theorem utf8Bytes_ascii (c : Nat) (h : c < 128) : utf8Bytes c = [c] := by
  simp [utf8Bytes, h]

theorem percentDecode_cons_ne (c : Nat) (l : List Nat) (h : c ≠ 37) :
    percentDecode (c :: l) = c :: percentDecode l := by
  rcases l with _ | ⟨d1, _ | ⟨d2, rest⟩⟩ <;> simp [percentDecode, h]

theorem percentDecode_pctByte (b : Nat) (hb : b < 256) (rest : List Nat) :
    percentDecode (pctByte b ++ rest) = b :: percentDecode rest := by
  have h1 : hexVal (hexDigit (b / 16)) = b / 16 := hexVal_hexDigit _ (by omega)
  have h2 : hexVal (hexDigit (b % 16)) = b % 16 := hexVal_hexDigit _ (by omega)
  have hb' : 16 * (b / 16) + b % 16 = b := by omega
  simp only [pctByte, List.cons_append, List.nil_append]
  rw [percentDecode, if_pos rfl, h1, h2, hb']

theorem percentDecode_flatBytes (bs : List Nat) (h : ∀ b ∈ bs, b < 256) (rest : List Nat) :
    percentDecode (bs.flatMap pctByte ++ rest) = bs ++ percentDecode rest := by
  induction bs with
  | nil => simp
  | cons b bs ih =>
      simp only [List.flatMap_cons, List.append_assoc, List.cons_append]
      rw [percentDecode_pctByte b (h b (by simp)) _, ih (fun x hx => h x (by simp [hx]))]

theorem utf8Decode_cons_lt (b : Nat) (l : List Nat) (h : b < 192) :
    utf8Decode (b :: l) = b :: utf8Decode l := by
  rcases l with _ | ⟨b2, _ | ⟨b3, _ | ⟨b4, rest⟩⟩⟩ <;> (conv_lhs => rw [utf8Decode])
  · rfl
  all_goals rw [if_pos h]

theorem utf8Decode_cons2 (b b2 : Nat) (l : List Nat) (h1 : 192 ≤ b) (h2 : b < 224) :
    utf8Decode (b :: b2 :: l) = ((b - 192) * 64 + (b2 - 128)) :: utf8Decode l := by
  have hb : ¬ b < 192 := by omega
  rcases l with _ | ⟨b3, _ | ⟨b4, l⟩⟩ <;> (conv_lhs => rw [utf8Decode]) <;>
    rw [if_neg hb, if_pos h2] <;> rfl

theorem utf8Decode_cons3 (b b2 b3 : Nat) (l : List Nat) (h1 : 224 ≤ b) (h2 : b < 240) :
    utf8Decode (b :: b2 :: b3 :: l) =
      ((b - 224) * 4096 + (b2 - 128) * 64 + (b3 - 128)) :: utf8Decode l := by
  have ha : ¬ b < 192 := by omega
  have hb : ¬ b < 224 := by omega
  rcases l with _ | ⟨b4, l⟩ <;> (conv_lhs => rw [utf8Decode]) <;>
    rw [if_neg ha, if_neg hb, if_pos h2] <;> rfl

theorem utf8Decode_cons4 (b b2 b3 b4 : Nat) (l : List Nat) (h1 : 240 ≤ b) :
    utf8Decode (b :: b2 :: b3 :: b4 :: l) =
      ((b - 240) * 262144 + (b2 - 128) * 4096 + (b3 - 128) * 64 + (b4 - 128)) ::
        utf8Decode l := by
  have ha : ¬ b < 192 := by omega
  have hb : ¬ b < 224 := by omega
  have hc : ¬ b < 240 := by omega
  conv_lhs => rw [utf8Decode]
  rw [if_neg ha, if_neg hb, if_neg hc]

theorem utf8Decode_utf8Bytes (n : Nat) (h : n < 1114112) (rest : List Nat) :
    utf8Decode (utf8Bytes n ++ rest) = n :: utf8Decode rest := by
  unfold utf8Bytes
  split_ifs with h1 h2 h3
  · simp only [List.cons_append, List.nil_append]
    exact utf8Decode_cons_lt n rest (by omega)
  · simp only [List.cons_append, List.nil_append]
    have e := utf8Decode_cons2 (192 + n / 64) (128 + n % 64) rest (by omega) (by omega)
    have v : ((192 + n / 64) - 192) * 64 + ((128 + n % 64) - 128) = n := by omega
    exact e.trans (congrArg (fun x => x :: utf8Decode rest) v)
  · simp only [List.cons_append, List.nil_append]
    have e := utf8Decode_cons3 (224 + n / 4096) (128 + (n / 64) % 64) (128 + n % 64) rest
      (by omega) (by omega)
    have v : ((224 + n / 4096) - 224) * 4096 + ((128 + (n / 64) % 64) - 128) * 64 +
        ((128 + n % 64) - 128) = n := by omega
    exact e.trans (congrArg (fun x => x :: utf8Decode rest) v)
  · simp only [List.cons_append, List.nil_append]
    have e := utf8Decode_cons4 (240 + n / 262144) (128 + (n / 4096) % 64)
      (128 + (n / 64) % 64) (128 + n % 64) rest (by omega)
    have v : ((240 + n / 262144) - 240) * 262144 + ((128 + (n / 4096) % 64) - 128) * 4096 +
        ((128 + (n / 64) % 64) - 128) * 64 + ((128 + n % 64) - 128) = n := by omega
    exact e.trans (congrArg (fun x => x :: utf8Decode rest) v)

theorem utf8Decode_flat (s : List Nat) (h : ∀ c ∈ s, c < 1114112) (rest : List Nat) :
    utf8Decode (s.flatMap utf8Bytes ++ rest) = s ++ utf8Decode rest := by
  induction s with
  | nil => simp
  | cons c s ih =>
      simp only [List.flatMap_cons, List.append_assoc, List.cons_append]
      rw [utf8Decode_utf8Bytes c (h c (by simp)) _, ih (fun x hx => h x (by simp [hx]))]

theorem uriUnreserved_bounds (c : Nat) (h : uriUnreserved c = true) :
    c < 128 ∧ c ≠ 37 ∧ c ≠ 32 := by
  unfold uriUnreserved at h
  simp only [Bool.or_eq_true, Bool.and_eq_true, decide_eq_true_eq, beq_iff_eq] at h
  omega

theorem formSafe_bounds (c : Nat) (h : formSafe c = true) :
    c < 128 ∧ c ≠ 37 ∧ c ≠ 32 := by
  unfold formSafe at h
  simp only [Bool.or_eq_true, Bool.and_eq_true, decide_eq_true_eq, beq_iff_eq] at h
  omega

theorem percentDecode_encode (s : List Nat) (h : ∀ c ∈ s, c < 1114112) (rest : List Nat) :
    percentDecode (encodeURIComponent s ++ rest) = s.flatMap utf8Bytes ++ percentDecode rest := by
  induction s with
  | nil => simp [encodeURIComponent]
  | cons c s ih =>
      have hc := h c (by simp)
      have ih' := ih (fun x hx => h x (by simp [hx]))
      simp only [encodeURIComponent, List.flatMap_cons, List.append_assoc] at ih' ⊢
      by_cases hu : uriUnreserved c = true
      · obtain ⟨hlt, hne, _⟩ := uriUnreserved_bounds c hu
        rw [if_pos hu, List.cons_append, List.nil_append, percentDecode_cons_ne c _ hne, ih',
            utf8Bytes_ascii c hlt, List.cons_append, List.nil_append]
      · rw [if_neg hu, percentDecode_flatBytes _ (utf8Bytes_mem_lt c hc) _, ih']

theorem percentDecode_form (s : List Nat) (h : ∀ c ∈ s, c < 128 ∧ c ≠ 32) (rest : List Nat) :
    percentDecode (formEncodeValue s ++ rest) = s.flatMap utf8Bytes ++ percentDecode rest := by
  induction s with
  | nil => simp [formEncodeValue]
  | cons c s ih =>
      obtain ⟨hlt, hsp⟩ := h c (by simp)
      have ih' := ih (fun x hx => h x (by simp [hx]))
      simp only [formEncodeValue, List.flatMap_cons, List.append_assoc] at ih' ⊢
      rw [if_neg (by simpa using hsp)]
      by_cases hf : formSafe c = true
      · obtain ⟨_, hne, _⟩ := formSafe_bounds c hf
        rw [if_pos hf, List.cons_append, List.nil_append, percentDecode_cons_ne c _ hne, ih',
            utf8Bytes_ascii c hlt, List.cons_append, List.nil_append]
      · rw [if_neg hf, percentDecode_flatBytes _ (utf8Bytes_mem_lt c (by omega)) _, ih']

theorem decode_encode (s : List Nat) (h : ∀ c ∈ s, c < 1114112) :
    decodeURIComponent (encodeURIComponent s) = s := by
  unfold decodeURIComponent
  rw [← List.append_nil (encodeURIComponent s), percentDecode_encode s h []]
  have : percentDecode [] = [] := rfl
  rw [this, utf8Decode_flat s h []]
  simp [utf8Decode]

theorem decode_form (s : List Nat) (h : ∀ c ∈ s, c < 128 ∧ c ≠ 32) :
    decodeURIComponent (formEncodeValue s) = s := by
  unfold decodeURIComponent
  rw [← List.append_nil (formEncodeValue s), percentDecode_form s h []]
  have : percentDecode [] = [] := rfl
  rw [this, utf8Decode_flat s (fun c hc => by have := (h c hc).1; omega) []]
  simp [utf8Decode]

theorem hexDigit_bounds (x : Nat) (h : x < 16) : hexDigit x < 128 ∧ hexDigit x ≠ 32 := by
  unfold hexDigit
  split_ifs <;> omega

theorem encode_mem (s : List Nat) (h : ∀ c ∈ s, c < 1114112) :
    ∀ c ∈ encodeURIComponent s, c < 128 ∧ c ≠ 32 := by
  intro c hc
  simp only [encodeURIComponent, List.mem_flatMap] at hc
  obtain ⟨x, hx, hc⟩ := hc
  by_cases hu : uriUnreserved x = true
  · rw [if_pos hu] at hc
    have hb := uriUnreserved_bounds x hu
    simp only [List.mem_singleton] at hc
    omega
  · rw [if_neg hu] at hc
    simp only [List.mem_flatMap, pctByte] at hc
    obtain ⟨b, hb, hc⟩ := hc
    have hb' : b < 256 := utf8Bytes_mem_lt x (h x hx) b hb
    have h1 := hexDigit_bounds (b / 16) (by omega)
    have h2 := hexDigit_bounds (b % 16) (by omega)
    simp only [List.mem_cons, List.mem_singleton, List.not_mem_nil, or_false] at hc
    rcases hc with hc | hc | hc <;> omega

end Fdx

namespace Fdx

/-! ## Claim theorems -/

/-- C1: for every HTTP response received by `FdxClient.request`, a
status in [200,300) yields `{success:true, data:<body>, status:<code>}`;
a status outside that range yields `{success:false, error:<server
message or 'API error'>, status:<code>}`, where the server-supplied
message is used when present (non-empty) and the fixed placeholder
`'API error'` otherwise. -/
theorem C1_request_envelope (r : AxiosResponse) :
    (200 ≤ r.status ∧ r.status < 300 →
      FdxClient.request (.response r) =
        { success := true, data := some r.body, error := none, status := some r.status })
  ∧ (¬ (200 ≤ r.status ∧ r.status < 300) →
      FdxClient.request (.response r) =
        { success := false, data := none,
          error := some (jsOrString (bodyMessage r.body) "API error"),
          status := some r.status })
  ∧ (bodyMessage r.body = none → jsOrString (bodyMessage r.body) "API error" = "API error")
  ∧ (∀ m, bodyMessage r.body = some m → m ≠ "" →
      jsOrString (bodyMessage r.body) "API error" = m) := by
  refine ⟨fun h => ?_, fun h => ?_, fun h => ?_, fun m hm hne => ?_⟩
  · simp [FdxClient.request, axiosSend, h, processResponse]
  · simp [FdxClient.request, axiosSend, h, processResponse]
  · simp [jsOrString, h]
  · simp [jsOrString, hm, hne]

/-- C1 witness: concrete 2xx and non-2xx responses. -/
theorem C1_request_envelope_witness :
    FdxClient.request (.response { status := 200, body := .obj [] }) =
      { success := true, data := some (.obj []), error := none, status := some 200 }
  ∧ FdxClient.request (.response { status := 404, body := .obj [] }) =
      { success := false, data := none, error := some "API error", status := some 404 } :=
  ⟨(C1_request_envelope { status := 200, body := .obj [] }).1 (by decide),
   by
    have h := (C1_request_envelope { status := 404, body := .obj [] }).2.1 (by decide)
    simpa [jsOrString, bodyMessage, Json.lookup] using h⟩

/-- C2: every database-scoped client operation, called while the
session's active-database identifier is unset, returns the fixed
failure envelope (no status code) and issues zero network requests. -/
theorem C2_dbId_guard (st : ClientState) (oracle : Oracle)
    (importId exportId transformerId buildId : String)
    (h : st.dbId = none) :
    FdxClient.imports st oracle = (.ok dbIdRequiredError, [])
  ∧ FdxClient.createImport st oracle = (.ok dbIdRequiredError, [])
  ∧ FdxClient.updateImport st oracle importId = (.ok dbIdRequiredError, [])
  ∧ FdxClient.updateImportSchedule st oracle importId = (.ok dbIdRequiredError, [])
  ∧ FdxClient.exports st oracle = (.ok dbIdRequiredError, [])
  ∧ FdxClient.createExport st oracle = (.ok dbIdRequiredError, [])
  ∧ FdxClient.updateExport st oracle exportId = (.ok dbIdRequiredError, [])
  ∧ FdxClient.scheduleExport st oracle exportId = (.ok dbIdRequiredError, [])
  ∧ FdxClient.transformers st oracle = (.ok dbIdRequiredError, [])
  ∧ FdxClient.createTransformer st oracle = (.ok dbIdRequiredError, [])
  ∧ FdxClient.updateTransformer st oracle transformerId = (.ok dbIdRequiredError, [])
  ∧ FdxClient.ftpAccounts st oracle = (.ok dbIdRequiredError, [])
  ∧ FdxClient.createFtpAccounts st oracle = (.ok dbIdRequiredError, [])
  ∧ FdxClient.joinImports st oracle = (.ok dbIdRequiredError, [])
  ∧ FdxClient.createJoinImport st oracle = (.ok dbIdRequiredError, [])
  ∧ FdxClient.updateDbFields st oracle = (.ok dbIdRequiredError, [])
  ∧ FdxClient.applyAutomateBuildTemplate st oracle = (.ok dbIdRequiredError, [])
  ∧ FdxClient.feedBuild st oracle buildId = (.ok dbIdRequiredError, [])
  ∧ FdxClient.cancelBuild st oracle buildId = (.ok dbIdRequiredError, []) := by
  have hd : dbIdUnset st = true := by simp [dbIdUnset, h]
  repeat' apply And.intro
  all_goals
    simp [FdxClient.imports, FdxClient.createImport, FdxClient.updateImport,
      FdxClient.updateImportSchedule, FdxClient.exports, FdxClient.createExport,
      FdxClient.updateExport, FdxClient.scheduleExport, FdxClient.transformers,
      FdxClient.createTransformer, FdxClient.updateTransformer, FdxClient.ftpAccounts,
      FdxClient.createFtpAccounts, FdxClient.joinImports, FdxClient.createJoinImport,
      FdxClient.updateDbFields, FdxClient.applyAutomateBuildTemplate, FdxClient.feedBuild,
      FdxClient.cancelBuild, hd]

/-- C2 witness: a concrete session with no database id set. -/
theorem C2_dbId_guard_witness :
    FdxClient.imports
        { apiToken := "t", dbId := none,
          baseUrl := "https://meta.feedonomics.com/api.php", timeout := 60000, verbose := false }
        (fun _ => .wire (.networkError "down")) = (.ok dbIdRequiredError, []) :=
  (C2_dbId_guard
    { apiToken := "t", dbId := none,
      baseUrl := "https://meta.feedonomics.com/api.php", timeout := 60000, verbose := false }
    (fun _ => .wire (.networkError "down")) "1" "1" "1" "1" rfl).1

end Fdx

namespace Fdx

/-- C3 counterexample: with `access_token = 'a&b'` (the claim's own
example), the value appearing in the produced URL's query string is
`a%252526b` — not the double-encoding `a%2526b` — so decoding it twice
yields `a%26b`, not the original string; three decodes are needed. -/
theorem C3_doubleDecode_counterexample :
    rawQueryValue (generateBigCommercePreprocessorUrl (tokenParams (Str "a&b")))
        (Str "connection_info%5Baccess_token%5D") = some (Str "a%252526b")
  ∧ decodeURIComponent (decodeURIComponent (Str "a%252526b")) = Str "a%26b"
  ∧ Str "a%26b" ≠ Str "a&b"
  ∧ Str "a%252526b" ≠ encodeURIComponent (encodeURIComponent (Str "a&b"))
  ∧ decodeURIComponent (decodeURIComponent (decodeURIComponent (Str "a%252526b")))
      = Str "a&b" := by
  decide

/-- C3 (amended): what `generateBigCommercePreprocessorUrl` stores for a
defined scalar field is the value double-encoded with
`encodeURIComponent`, and the `URLSearchParams` serializer then
percent-encodes the stored value once more on its way into the URL's
query string; consequently decoding the query value *three* times (not
twice) reproduces the original string exactly. -/
theorem C3_tripleEncodedValue (v : List Nat) (h : ∀ c ∈ v, c < 1114112) :
    (genSearchParams (tokenParams v)).lookup (Str "connection_info[access_token]")
      = some (encodeURIComponent (encodeURIComponent v))
  ∧ serializeParams (genSearchParams (tokenParams v))
      = serializePair (Str "connection_info[client]",
            encodeURIComponent (encodeURIComponent (Str "bigcommerce")))
        ++ Str "&" ++ serializePair (Str "connection_info[protocol]",
            encodeURIComponent (encodeURIComponent (Str "api")))
        ++ Str "&" ++ (formEncodeValue (Str "connection_info[access_token]") ++ Str "="
            ++ formEncodeValue (encodeURIComponent (encodeURIComponent v)))
  ∧ decodeURIComponent (decodeURIComponent (decodeURIComponent
        (formEncodeValue (encodeURIComponent (encodeURIComponent v))))) = v := by
  refine ⟨rfl, rfl, ?_⟩
  have h1 : ∀ c ∈ encodeURIComponent v, c < 1114112 := by
    intro c hc
    have := encode_mem v h c hc
    omega
  have h2 := encode_mem (encodeURIComponent v) h1
  rw [decode_form _ h2, decode_encode _ h1, decode_encode v h]

/-- C3 witness: the triple-decode round trip at the concrete store hash
`'x/y'`. -/
theorem C3_tripleEncodedValue_witness :
    decodeURIComponent (decodeURIComponent (decodeURIComponent
        (formEncodeValue (encodeURIComponent (encodeURIComponent (Str "x/y"))))))
      = Str "x/y" :=
  (C3_tripleEncodedValue (Str "x/y") (by decide)).2.2

end Fdx

namespace Fdx

/-! ### Get-or-create short-circuiting (helper lemmas) -/

theorem getOrCreateAccount_fetchFail (st : ClientState) (oracle : Oracle) (storeId : String)
    (w : WireOutcome)
    (h1 : oracle ⟨"GET", "/user/accounts"⟩ = .wire w)
    (hw : (FdxClient.request w).success = false) :
    FdxService.getOrCreateAccount st oracle storeId =
      (.ok (failEnv ("Error getting accounts: " ++ errStr (FdxClient.request w))),
       [⟨"GET", "/user/accounts"⟩]) := by
  simp [FdxService.getOrCreateAccount, FdxService.retrieveAccounts, FdxClient.accounts,
    performRequest, bindCall, h1, hw, failEnv]

theorem createOrUpdateExport_fetchFail (st : ClientState) (oracle : Oracle)
    (hasTimeSlot : Bool) (d : String) (w : WireOutcome)
    (hd : st.dbId = some d) (hne : d ≠ "")
    (h1 : oracle ⟨"GET", "/dbs/" ++ d ++ "/exports"⟩ = .wire w)
    (hw : (FdxClient.request w).success = false) :
    FdxService.createOrUpdateExport st oracle hasTimeSlot =
      (.ok (failEnv ("Getting existing export: " ++
            ("Error getting exports: " ++ errStr (FdxClient.request w)))),
       [⟨"GET", "/dbs/" ++ d ++ "/exports"⟩]) := by
  simp [FdxService.createOrUpdateExport, FdxService.getExistingExport, FdxClient.exports,
    performRequest, bindCall, dbIdUnset, dbIdStr, hd, hne, h1, hw, failEnv, errStr]

theorem updateVaultEntries_fetchFail (st : ClientState) (oracle : Oracle) (w : WireOutcome)
    (h1 : oracle ⟨"GET", "/vault"⟩ = .wire w)
    (hw : (FdxClient.request w).success = false) :
    FdxService.updateVaultEntries st oracle =
      (.ok (failEnv ("Error getting vaults: " ++ errStr (FdxClient.request w))),
       [⟨"GET", "/vault"⟩]) := by
  simp [FdxService.updateVaultEntries, FdxClient.vault, performRequest, bindCall, h1, hw]

theorem createOrUpdateImport_updateFail (st : ClientState) (oracle : Oracle) (d : String)
    (w1 w2 : WireOutcome) (l : List Json) (e : Json)
    (hd : st.dbId = some d) (hne : d ≠ "")
    (h1 : oracle ⟨"GET", "/dbs/" ++ d ++ "/imports"⟩ = .wire w1)
    (hw1 : (FdxClient.request w1).success = true)
    (hdata : (FdxClient.request w1).data = some (.arr l))
    (hfind : l.find? (fun i => nameIs i "BigCommerceImport") = some e)
    (htr : jsTruthy e = true)
    (h2 : oracle ⟨"PUT", "/dbs/" ++ d ++ "/imports/" ++ optIdToString (e.lookup "id")⟩ =
      .wire w2)
    (hw2 : (FdxClient.request w2).success = false) :
    FdxService.createOrUpdateImport st oracle =
      (.ok (failEnv ("Error updating import: " ++ errStr (FdxClient.request w2))),
       [⟨"GET", "/dbs/" ++ d ++ "/imports"⟩,
        ⟨"PUT", "/dbs/" ++ d ++ "/imports/" ++ optIdToString (e.lookup "id")⟩]) := by
  simp [FdxService.createOrUpdateImport, FdxService.retrieveImport, FdxClient.imports,
    FdxClient.updateImport, performRequest, bindCall, dbIdUnset, dbIdStr, hd, hne, h1, hw1,
    hdata, jsonFindByName, hfind, foundOrNull, okEnv, jsOptTruthy, jsonIndexOpt, htr, h2, hw2,
    failEnv, errStr]

theorem createOrUpdateImport_createFail (st : ClientState) (oracle : Oracle) (d : String)
    (w1 w2 : WireOutcome) (l : List Json)
    (hd : st.dbId = some d) (hne : d ≠ "")
    (h1 : oracle ⟨"GET", "/dbs/" ++ d ++ "/imports"⟩ = .wire w1)
    (hw1 : (FdxClient.request w1).success = true)
    (hdata : (FdxClient.request w1).data = some (.arr l))
    (hfind : l.find? (fun i => nameIs i "BigCommerceImport") = none)
    (h2 : oracle ⟨"POST", "/dbs/" ++ d ++ "/imports"⟩ = .wire w2)
    (hw2 : (FdxClient.request w2).success = false) :
    FdxService.createOrUpdateImport st oracle =
      (.ok (failEnv ("Error creating import: " ++ errStr (FdxClient.request w2))),
       [⟨"GET", "/dbs/" ++ d ++ "/imports"⟩, ⟨"POST", "/dbs/" ++ d ++ "/imports"⟩]) := by
  simp [FdxService.createOrUpdateImport, FdxService.retrieveImport, FdxClient.imports,
    FdxClient.createImport, performRequest, bindCall, dbIdUnset, dbIdStr, hd, hne, h1, hw1,
    hdata, jsonFindByName, hfind, foundOrNull, okEnv, jsOptTruthy, jsonIndexOpt, jsTruthy, h2,
    hw2, failEnv, errStr]

theorem createOrUpdateImport_fetchFail_creates (st : ClientState) (oracle : Oracle)
    (d : String) (w1 w2 : WireOutcome)
    (hd : st.dbId = some d) (hne : d ≠ "")
    (h1 : oracle ⟨"GET", "/dbs/" ++ d ++ "/imports"⟩ = .wire w1)
    (hw1 : (FdxClient.request w1).success = false)
    (h2 : oracle ⟨"POST", "/dbs/" ++ d ++ "/imports"⟩ = .wire w2) :
    (FdxService.createOrUpdateImport st oracle).2 =
      [⟨"GET", "/dbs/" ++ d ++ "/imports"⟩, ⟨"POST", "/dbs/" ++ d ++ "/imports"⟩] := by
  simp [FdxService.createOrUpdateImport, FdxService.retrieveImport, FdxClient.imports,
    FdxClient.createImport, performRequest, bindCall, dbIdUnset, dbIdStr, hd, hne, h1, hw1, h2,
    failEnv]
  split <;> simp

theorem getOrCreateAccount_createFail (st : ClientState) (oracle : Oracle) (storeId : String)
    (w1 w2 : WireOutcome)
    (h1 : oracle ⟨"GET", "/user/accounts"⟩ = .wire w1)
    (hw1 : (FdxClient.request w1).success = true)
    (hnf : jsOptTruthy ((accountsByName (FdxClient.request w1).data).lookup
      (FdxService.accountNameStart ++ storeId)) = false)
    (h2 : oracle ⟨"POST", "/bigcommerce/account"⟩ = .wire w2)
    (hw2 : (FdxClient.request w2).success = false) :
    FdxService.getOrCreateAccount st oracle storeId =
      (.ok (failEnv ("Error creating account: " ++ errStr (FdxClient.request w2))),
       [⟨"GET", "/user/accounts"⟩, ⟨"POST", "/bigcommerce/account"⟩]) := by
  simp [FdxService.getOrCreateAccount, FdxService.retrieveAccounts, FdxService.createAccount,
    FdxClient.accounts, FdxClient.createBigCommerceAccount, performRequest, bindCall, h1, hw1,
    okEnv, jsonIndexOpt, hnf, h2, hw2, failEnv, errStr]

theorem moveDbToGroup_fetchFail (st : ClientState) (oracle : Oracle)
    (accountId accountName : String) (w : WireOutcome)
    (h1 : oracle ⟨"GET", "/accounts/" ++ accountId ++ "/groups"⟩ = .wire w)
    (hw : (FdxClient.request w).success = false) :
    FdxService.moveDbToGroup st oracle accountId accountName =
      (.ok (failEnv ("Error getting db groups: " ++ errStr (FdxClient.request w))),
       [⟨"GET", "/accounts/" ++ accountId ++ "/groups"⟩]) := by
  simp [FdxService.moveDbToGroup, FdxService.findGroup, FdxClient.groups,
    performRequest, bindCall, h1, hw, failEnv]

theorem moveDbToGroup_moveFail (st : ClientState) (oracle : Oracle)
    (accountId accountName : String) (w1 w2 : WireOutcome) (l : List Json) (g : Json)
    (h1 : oracle ⟨"GET", "/accounts/" ++ accountId ++ "/groups"⟩ = .wire w1)
    (hw1 : (FdxClient.request w1).success = true)
    (hdata : (FdxClient.request w1).data = some (.arr l))
    (hfind : l.find? (fun g =>
        match g.lookup "name" with
        | some (.str s) => s.startsWith FdxService.accountNameStart
        | _ => false) = some g)
    (htr : jsTruthy g = true)
    (h2 : oracle ⟨"POST", "/groups/" ++ optIdToString (g.lookup "id") ++ "/dbs"⟩ = .wire w2)
    (hw2 : (FdxClient.request w2).success = false) :
    FdxService.moveDbToGroup st oracle accountId accountName =
      (.ok (failEnv ("Error moving db to group: " ++ errStr (FdxClient.request w2))),
       [⟨"GET", "/accounts/" ++ accountId ++ "/groups"⟩,
        ⟨"POST", "/groups/" ++ optIdToString (g.lookup "id") ++ "/dbs"⟩]) := by
  simp [FdxService.moveDbToGroup, FdxService.findGroup, FdxClient.groups,
    FdxClient.moveDbToGroup, performRequest, bindCall, h1, hw1, hdata, hfind, okEnv,
    jsOptTruthy, jsonIndexOpt, htr, h2, hw2, failEnv, errStr]

theorem moveDbToGroup_createFail (st : ClientState) (oracle : Oracle)
    (accountId accountName : String) (w1 w2 : WireOutcome) (l : List Json)
    (h1 : oracle ⟨"GET", "/accounts/" ++ accountId ++ "/groups"⟩ = .wire w1)
    (hw1 : (FdxClient.request w1).success = true)
    (hdata : (FdxClient.request w1).data = some (.arr l))
    (hfind : l.find? (fun g =>
        match g.lookup "name" with
        | some (.str s) => s.startsWith FdxService.accountNameStart
        | _ => false) = none)
    (h2 : oracle ⟨"POST", "/groups"⟩ = .wire w2)
    (hw2 : (FdxClient.request w2).success = false) :
    FdxService.moveDbToGroup st oracle accountId accountName =
      (.ok (failEnv ("Error moving db to group: " ++ errStr (FdxClient.request w2))),
       [⟨"GET", "/accounts/" ++ accountId ++ "/groups"⟩, ⟨"POST", "/groups"⟩]) := by
  simp [FdxService.moveDbToGroup, FdxService.findGroup, FdxClient.groups,
    FdxClient.createGroup, performRequest, bindCall, h1, hw1, hdata, hfind, okEnv,
    jsOptTruthy, h2, hw2, failEnv, errStr]

theorem createOrUpdateExport_updateFail (st : ClientState) (oracle : Oracle)
    (hasTimeSlot : Bool) (d : String) (w1 w2 : WireOutcome) (l : List Json) (e : Json)
    (hd : st.dbId = some d) (hne : d ≠ "")
    (h1 : oracle ⟨"GET", "/dbs/" ++ d ++ "/exports"⟩ = .wire w1)
    (hw1 : (FdxClient.request w1).success = true)
    (hdata : (FdxClient.request w1).data = some (.arr l))
    (hfind : l.find? (fun i => nameIs i "Export Google") = some e)
    (htr : jsTruthy e = true)
    (h2 : oracle ⟨"PUT", "/dbs/" ++ d ++ "/exports/" ++ optIdToString (e.lookup "id")⟩ =
      .wire w2)
    (hw2 : (FdxClient.request w2).success = false) :
    FdxService.createOrUpdateExport st oracle hasTimeSlot =
      (.ok (failEnv ("Creating or updating exports: " ++
            ("Error updating exports: " ++ errStr (FdxClient.request w2)))),
       [⟨"GET", "/dbs/" ++ d ++ "/exports"⟩,
        ⟨"PUT", "/dbs/" ++ d ++ "/exports/" ++ optIdToString (e.lookup "id")⟩]) := by
  simp [FdxService.createOrUpdateExport, FdxService.getExistingExport,
    FdxService.handleExistingExport, FdxClient.exports, FdxClient.updateExport,
    performRequest, bindCall, dbIdUnset, dbIdStr, hd, hne, h1, hw1, hdata, jsonFindByName,
    hfind, foundOrNull, okEnv, jsOptTruthy, jsonIndexOpt, htr, h2, hw2, failEnv, errStr]

theorem createOrUpdateExport_createFail (st : ClientState) (oracle : Oracle)
    (hasTimeSlot : Bool) (d : String) (w1 w2 : WireOutcome) (l : List Json)
    (hd : st.dbId = some d) (hne : d ≠ "")
    (h1 : oracle ⟨"GET", "/dbs/" ++ d ++ "/exports"⟩ = .wire w1)
    (hw1 : (FdxClient.request w1).success = true)
    (hdata : (FdxClient.request w1).data = some (.arr l))
    (hfind : l.find? (fun i => nameIs i "Export Google") = none)
    (h2 : oracle ⟨"POST", "/dbs/" ++ d ++ "/exports"⟩ = .wire w2)
    (hw2 : (FdxClient.request w2).success = false) :
    FdxService.createOrUpdateExport st oracle hasTimeSlot =
      (.ok (failEnv ("Creating or updating exports: " ++
            ("Error creating exports: " ++ errStr (FdxClient.request w2)))),
       [⟨"GET", "/dbs/" ++ d ++ "/exports"⟩, ⟨"POST", "/dbs/" ++ d ++ "/exports"⟩]) := by
  simp [FdxService.createOrUpdateExport, FdxService.getExistingExport,
    FdxService.handleExistingExport, FdxClient.exports, FdxClient.createExport,
    performRequest, bindCall, dbIdUnset, dbIdStr, hd, hne, h1, hw1, hdata, jsonFindByName,
    hfind, foundOrNull, okEnv, jsOptTruthy, jsTruthy, h2, hw2, failEnv, errStr]

theorem updateVaultEntries_updateFail (st : ClientState) (oracle : Oracle)
    (w1 w2 : WireOutcome) (l : List Json) (entry : Json)
    (h1 : oracle ⟨"GET", "/vault"⟩ = .wire w1)
    (hw1 : (FdxClient.request w1).success = true)
    (hrows : vaultRows (FdxClient.request w1).data = l)
    (hnold : l.find? (fun e => nameIs e "BigCommerce Credentials") = none)
    (hfind : l.find? (fun e => nameIs e "bc_credentials") = some entry)
    (h2 : oracle ⟨"PUT", "/vault/" ++ optIdToString (entry.lookup "id")⟩ = .wire w2)
    (hw2 : (FdxClient.request w2).success = false) :
    FdxService.updateVaultEntries st oracle =
      (.ok (failEnv ("Error creating vault: " ++
            jsOrString (FdxClient.request w2).error "Unknown error")),
       [⟨"GET", "/vault"⟩, ⟨"PUT", "/vault/" ++ optIdToString (entry.lookup "id")⟩]) := by
  simp [FdxService.updateVaultEntries, FdxService.deleteOldEntry,
    FdxService.createOrUpdateVaultEntry, FdxClient.vault, FdxClient.updateVault,
    performRequest, bindCall, h1, hw1, hrows, hnold, hfind, h2, hw2, failEnv]

theorem updateVaultEntries_createFail (st : ClientState) (oracle : Oracle)
    (w1 w2 : WireOutcome) (l : List Json)
    (h1 : oracle ⟨"GET", "/vault"⟩ = .wire w1)
    (hw1 : (FdxClient.request w1).success = true)
    (hrows : vaultRows (FdxClient.request w1).data = l)
    (hnold : l.find? (fun e => nameIs e "BigCommerce Credentials") = none)
    (hfind : l.find? (fun e => nameIs e "bc_credentials") = none)
    (h2 : oracle ⟨"POST", "/vault"⟩ = .wire w2)
    (hw2 : (FdxClient.request w2).success = false) :
    FdxService.updateVaultEntries st oracle =
      (.ok (failEnv ("Error creating vault: " ++
            jsOrString (FdxClient.request w2).error "Unknown error")),
       [⟨"GET", "/vault"⟩, ⟨"POST", "/vault"⟩]) := by
  simp [FdxService.updateVaultEntries, FdxService.deleteOldEntry,
    FdxService.createOrUpdateVaultEntry, FdxClient.vault, FdxClient.createVault,
    performRequest, bindCall, h1, hw1, hrows, hnold, hfind, h2, hw2, failEnv]

end Fdx

namespace Fdx

/-- C4 counterexample: with the session's database set to `7` and a
remote whose import-collection fetch fails (network error) while import
creation succeeds, `createOrUpdateImport` does *not* return immediately
on the failed fetch: it issues the create call anyway (the trace holds
two requests, the second being the `POST` create), and even returns the
create call's payload as success — contradicting "when the initial
fetch fails no create call is issued". -/
theorem C4_fetchFail_counterexample :
    FdxService.createOrUpdateImport stDb7 importsFetchFailOracle
      = (.ok (okEnv (some (Json.obj [("id", Json.num 1)]))),
         [{ method := "GET", url := "/dbs/7/imports" },
          { method := "POST", url := "/dbs/7/imports" }])
  ∧ (FdxService.createOrUpdateImport stDb7 importsFetchFailOracle).2 ≠
      [{ method := "GET", url := "/dbs/7/imports" }] :=
  ⟨rfl, by decide⟩

/-- C4 (amended): a failure of the initial collection fetch (step 1)
short-circuits the account, group, export and vault get-or-create
operations with their stage labels and no further remote call; a
failure of the update call (step 3) or of the create call (step 4)
short-circuits every get-or-create operation (accounts, groups,
imports, exports, vault entries) with its stage label and no further
remote call; for the *import* operation, however, a failed initial
fetch does not short-circuit — the operation proceeds to issue the
create call. -/
theorem C4_getOrCreate_shortCircuit :
    (∀ (st : ClientState) (oracle : Oracle) (storeId : String) (w : WireOutcome),
      oracle ⟨"GET", "/user/accounts"⟩ = .wire w →
      (FdxClient.request w).success = false →
      FdxService.getOrCreateAccount st oracle storeId =
        (.ok (failEnv ("Error getting accounts: " ++ errStr (FdxClient.request w))),
         [⟨"GET", "/user/accounts"⟩]))
  ∧ (∀ (st : ClientState) (oracle : Oracle) (accountId accountName : String) (w : WireOutcome),
      oracle ⟨"GET", "/accounts/" ++ accountId ++ "/groups"⟩ = .wire w →
      (FdxClient.request w).success = false →
      FdxService.moveDbToGroup st oracle accountId accountName =
        (.ok (failEnv ("Error getting db groups: " ++ errStr (FdxClient.request w))),
         [⟨"GET", "/accounts/" ++ accountId ++ "/groups"⟩]))
  ∧ (∀ (st : ClientState) (oracle : Oracle) (hasTimeSlot : Bool) (d : String)
        (w : WireOutcome),
      st.dbId = some d → d ≠ "" →
      oracle ⟨"GET", "/dbs/" ++ d ++ "/exports"⟩ = .wire w →
      (FdxClient.request w).success = false →
      FdxService.createOrUpdateExport st oracle hasTimeSlot =
        (.ok (failEnv ("Getting existing export: " ++
              ("Error getting exports: " ++ errStr (FdxClient.request w)))),
         [⟨"GET", "/dbs/" ++ d ++ "/exports"⟩]))
  ∧ (∀ (st : ClientState) (oracle : Oracle) (w : WireOutcome),
      oracle ⟨"GET", "/vault"⟩ = .wire w →
      (FdxClient.request w).success = false →
      FdxService.updateVaultEntries st oracle =
        (.ok (failEnv ("Error getting vaults: " ++ errStr (FdxClient.request w))),
         [⟨"GET", "/vault"⟩]))
  ∧ (∀ (st : ClientState) (oracle : Oracle) (accountId accountName : String)
        (w1 w2 : WireOutcome) (l : List Json) (g : Json),
      oracle ⟨"GET", "/accounts/" ++ accountId ++ "/groups"⟩ = .wire w1 →
      (FdxClient.request w1).success = true →
      (FdxClient.request w1).data = some (.arr l) →
      l.find? (fun g =>
        match g.lookup "name" with
        | some (.str s) => s.startsWith FdxService.accountNameStart
        | _ => false) = some g →
      jsTruthy g = true →
      oracle ⟨"POST", "/groups/" ++ optIdToString (g.lookup "id") ++ "/dbs"⟩ = .wire w2 →
      (FdxClient.request w2).success = false →
      FdxService.moveDbToGroup st oracle accountId accountName =
        (.ok (failEnv ("Error moving db to group: " ++ errStr (FdxClient.request w2))),
         [⟨"GET", "/accounts/" ++ accountId ++ "/groups"⟩,
          ⟨"POST", "/groups/" ++ optIdToString (g.lookup "id") ++ "/dbs"⟩]))
  ∧ (∀ (st : ClientState) (oracle : Oracle) (d : String) (w1 w2 : WireOutcome)
        (l : List Json) (e : Json),
      st.dbId = some d → d ≠ "" →
      oracle ⟨"GET", "/dbs/" ++ d ++ "/imports"⟩ = .wire w1 →
      (FdxClient.request w1).success = true →
      (FdxClient.request w1).data = some (.arr l) →
      l.find? (fun i => nameIs i "BigCommerceImport") = some e →
      jsTruthy e = true →
      oracle ⟨"PUT", "/dbs/" ++ d ++ "/imports/" ++ optIdToString (e.lookup "id")⟩ =
        .wire w2 →
      (FdxClient.request w2).success = false →
      FdxService.createOrUpdateImport st oracle =
        (.ok (failEnv ("Error updating import: " ++ errStr (FdxClient.request w2))),
         [⟨"GET", "/dbs/" ++ d ++ "/imports"⟩,
          ⟨"PUT", "/dbs/" ++ d ++ "/imports/" ++ optIdToString (e.lookup "id")⟩]))
  ∧ (∀ (st : ClientState) (oracle : Oracle) (hasTimeSlot : Bool) (d : String)
        (w1 w2 : WireOutcome) (l : List Json) (e : Json),
      st.dbId = some d → d ≠ "" →
      oracle ⟨"GET", "/dbs/" ++ d ++ "/exports"⟩ = .wire w1 →
      (FdxClient.request w1).success = true →
      (FdxClient.request w1).data = some (.arr l) →
      l.find? (fun i => nameIs i "Export Google") = some e →
      jsTruthy e = true →
      oracle ⟨"PUT", "/dbs/" ++ d ++ "/exports/" ++ optIdToString (e.lookup "id")⟩ =
        .wire w2 →
      (FdxClient.request w2).success = false →
      FdxService.createOrUpdateExport st oracle hasTimeSlot =
        (.ok (failEnv ("Creating or updating exports: " ++
              ("Error updating exports: " ++ errStr (FdxClient.request w2)))),
         [⟨"GET", "/dbs/" ++ d ++ "/exports"⟩,
          ⟨"PUT", "/dbs/" ++ d ++ "/exports/" ++ optIdToString (e.lookup "id")⟩]))
  ∧ (∀ (st : ClientState) (oracle : Oracle) (w1 w2 : WireOutcome) (l : List Json)
        (entry : Json),
      oracle ⟨"GET", "/vault"⟩ = .wire w1 →
      (FdxClient.request w1).success = true →
      vaultRows (FdxClient.request w1).data = l →
      l.find? (fun e => nameIs e "BigCommerce Credentials") = none →
      l.find? (fun e => nameIs e "bc_credentials") = some entry →
      oracle ⟨"PUT", "/vault/" ++ optIdToString (entry.lookup "id")⟩ = .wire w2 →
      (FdxClient.request w2).success = false →
      FdxService.updateVaultEntries st oracle =
        (.ok (failEnv ("Error creating vault: " ++
              jsOrString (FdxClient.request w2).error "Unknown error")),
         [⟨"GET", "/vault"⟩, ⟨"PUT", "/vault/" ++ optIdToString (entry.lookup "id")⟩]))
  ∧ (∀ (st : ClientState) (oracle : Oracle) (storeId : String) (w1 w2 : WireOutcome),
      oracle ⟨"GET", "/user/accounts"⟩ = .wire w1 →
      (FdxClient.request w1).success = true →
      jsOptTruthy ((accountsByName (FdxClient.request w1).data).lookup
        (FdxService.accountNameStart ++ storeId)) = false →
      oracle ⟨"POST", "/bigcommerce/account"⟩ = .wire w2 →
      (FdxClient.request w2).success = false →
      FdxService.getOrCreateAccount st oracle storeId =
        (.ok (failEnv ("Error creating account: " ++ errStr (FdxClient.request w2))),
         [⟨"GET", "/user/accounts"⟩, ⟨"POST", "/bigcommerce/account"⟩]))
  ∧ (∀ (st : ClientState) (oracle : Oracle) (accountId accountName : String)
        (w1 w2 : WireOutcome) (l : List Json),
      oracle ⟨"GET", "/accounts/" ++ accountId ++ "/groups"⟩ = .wire w1 →
      (FdxClient.request w1).success = true →
      (FdxClient.request w1).data = some (.arr l) →
      l.find? (fun g =>
        match g.lookup "name" with
        | some (.str s) => s.startsWith FdxService.accountNameStart
        | _ => false) = none →
      oracle ⟨"POST", "/groups"⟩ = .wire w2 →
      (FdxClient.request w2).success = false →
      FdxService.moveDbToGroup st oracle accountId accountName =
        (.ok (failEnv ("Error moving db to group: " ++ errStr (FdxClient.request w2))),
         [⟨"GET", "/accounts/" ++ accountId ++ "/groups"⟩, ⟨"POST", "/groups"⟩]))
  ∧ (∀ (st : ClientState) (oracle : Oracle) (d : String) (w1 w2 : WireOutcome)
        (l : List Json),
      st.dbId = some d → d ≠ "" →
      oracle ⟨"GET", "/dbs/" ++ d ++ "/imports"⟩ = .wire w1 →
      (FdxClient.request w1).success = true →
      (FdxClient.request w1).data = some (.arr l) →
      l.find? (fun i => nameIs i "BigCommerceImport") = none →
      oracle ⟨"POST", "/dbs/" ++ d ++ "/imports"⟩ = .wire w2 →
      (FdxClient.request w2).success = false →
      FdxService.createOrUpdateImport st oracle =
        (.ok (failEnv ("Error creating import: " ++ errStr (FdxClient.request w2))),
         [⟨"GET", "/dbs/" ++ d ++ "/imports"⟩, ⟨"POST", "/dbs/" ++ d ++ "/imports"⟩]))
  ∧ (∀ (st : ClientState) (oracle : Oracle) (hasTimeSlot : Bool) (d : String)
        (w1 w2 : WireOutcome) (l : List Json),
      st.dbId = some d → d ≠ "" →
      oracle ⟨"GET", "/dbs/" ++ d ++ "/exports"⟩ = .wire w1 →
      (FdxClient.request w1).success = true →
      (FdxClient.request w1).data = some (.arr l) →
      l.find? (fun i => nameIs i "Export Google") = none →
      oracle ⟨"POST", "/dbs/" ++ d ++ "/exports"⟩ = .wire w2 →
      (FdxClient.request w2).success = false →
      FdxService.createOrUpdateExport st oracle hasTimeSlot =
        (.ok (failEnv ("Creating or updating exports: " ++
              ("Error creating exports: " ++ errStr (FdxClient.request w2)))),
         [⟨"GET", "/dbs/" ++ d ++ "/exports"⟩, ⟨"POST", "/dbs/" ++ d ++ "/exports"⟩]))
  ∧ (∀ (st : ClientState) (oracle : Oracle) (w1 w2 : WireOutcome) (l : List Json),
      oracle ⟨"GET", "/vault"⟩ = .wire w1 →
      (FdxClient.request w1).success = true →
      vaultRows (FdxClient.request w1).data = l →
      l.find? (fun e => nameIs e "BigCommerce Credentials") = none →
      l.find? (fun e => nameIs e "bc_credentials") = none →
      oracle ⟨"POST", "/vault"⟩ = .wire w2 →
      (FdxClient.request w2).success = false →
      FdxService.updateVaultEntries st oracle =
        (.ok (failEnv ("Error creating vault: " ++
              jsOrString (FdxClient.request w2).error "Unknown error")),
         [⟨"GET", "/vault"⟩, ⟨"POST", "/vault"⟩]))
  ∧ (∀ (st : ClientState) (oracle : Oracle) (d : String) (w1 w2 : WireOutcome),
      st.dbId = some d → d ≠ "" →
      oracle ⟨"GET", "/dbs/" ++ d ++ "/imports"⟩ = .wire w1 →
      (FdxClient.request w1).success = false →
      oracle ⟨"POST", "/dbs/" ++ d ++ "/imports"⟩ = .wire w2 →
      (FdxService.createOrUpdateImport st oracle).2 =
        [⟨"GET", "/dbs/" ++ d ++ "/imports"⟩, ⟨"POST", "/dbs/" ++ d ++ "/imports"⟩]) :=
  ⟨getOrCreateAccount_fetchFail, moveDbToGroup_fetchFail, createOrUpdateExport_fetchFail,
   updateVaultEntries_fetchFail,
   moveDbToGroup_moveFail, createOrUpdateImport_updateFail, createOrUpdateExport_updateFail,
   updateVaultEntries_updateFail,
   getOrCreateAccount_createFail, moveDbToGroup_createFail, createOrUpdateImport_createFail,
   createOrUpdateExport_createFail, updateVaultEntries_createFail,
   createOrUpdateImport_fetchFail_creates⟩

/-- C4 witness: the fall-through-to-create branch at the concrete
session and remote of the counterexample. -/
theorem C4_getOrCreate_shortCircuit_witness :
    (FdxService.createOrUpdateImport stDb7 importsFetchFailOracle).2 =
      [⟨"GET", "/dbs/" ++ "7" ++ "/imports"⟩, ⟨"POST", "/dbs/" ++ "7" ++ "/imports"⟩] :=
  C4_getOrCreate_shortCircuit.2.2.2.2.2.2.2.2.2.2.2.2.2 stDb7 importsFetchFailOracle "7"
    (.networkError "boom") (.response { status := 201, body := .obj [("id", .num 1)] })
    rfl (by decide) rfl rfl rfl

end Fdx

namespace Fdx

/-! ### Update-in-place branches of the get-or-create operations -/

theorem createOrUpdateImport_found_updates (st : ClientState) (oracle : Oracle) (d : String)
    (w1 w2 : WireOutcome) (l : List Json) (e : Json)
    (hd : st.dbId = some d) (hne : d ≠ "")
    (h1 : oracle ⟨"GET", "/dbs/" ++ d ++ "/imports"⟩ = .wire w1)
    (hw1 : (FdxClient.request w1).success = true)
    (hdata : (FdxClient.request w1).data = some (.arr l))
    (hfind : l.find? (fun i => nameIs i "BigCommerceImport") = some e)
    (htr : jsTruthy e = true)
    (h2 : oracle ⟨"PUT", "/dbs/" ++ d ++ "/imports/" ++ optIdToString (e.lookup "id")⟩ =
      .wire w2)
    (hw2 : (FdxClient.request w2).success = true) :
    FdxService.createOrUpdateImport st oracle =
      (.ok (okEnv (some e)),
       [⟨"GET", "/dbs/" ++ d ++ "/imports"⟩,
        ⟨"PUT", "/dbs/" ++ d ++ "/imports/" ++ optIdToString (e.lookup "id")⟩]) := by
  simp [FdxService.createOrUpdateImport, FdxService.retrieveImport, FdxClient.imports,
    FdxClient.updateImport, performRequest, bindCall, dbIdUnset, dbIdStr, hd, hne, h1, hw1,
    hdata, jsonFindByName, hfind, foundOrNull, okEnv, jsOptTruthy, jsonIndexOpt, htr, h2, hw2]

theorem createOrUpdateExport_found_updates (st : ClientState) (oracle : Oracle) (d : String)
    (w1 w2 : WireOutcome) (l : List Json) (e : Json)
    (hd : st.dbId = some d) (hne : d ≠ "")
    (h1 : oracle ⟨"GET", "/dbs/" ++ d ++ "/exports"⟩ = .wire w1)
    (hw1 : (FdxClient.request w1).success = true)
    (hdata : (FdxClient.request w1).data = some (.arr l))
    (hfind : l.find? (fun i => nameIs i "Export Google") = some e)
    (htr : jsTruthy e = true)
    (h2 : oracle ⟨"PUT", "/dbs/" ++ d ++ "/exports/" ++ optIdToString (e.lookup "id")⟩ =
      .wire w2)
    (hw2 : (FdxClient.request w2).success = true) :
    FdxService.createOrUpdateExport st oracle false =
      (.ok (okEnv (some e)),
       [⟨"GET", "/dbs/" ++ d ++ "/exports"⟩,
        ⟨"PUT", "/dbs/" ++ d ++ "/exports/" ++ optIdToString (e.lookup "id")⟩]) := by
  simp [FdxService.createOrUpdateExport, FdxService.getExistingExport,
    FdxService.handleExistingExport, FdxClient.exports, FdxClient.updateExport,
    performRequest, bindCall, dbIdUnset, dbIdStr, hd, hne, h1, hw1,
    hdata, jsonFindByName, hfind, foundOrNull, okEnv, jsOptTruthy, jsonIndexOpt, htr, h2, hw2]

theorem createOrUpdateVaultEntry_found_updates (st : ClientState) (oracle : Oracle)
    (entries : List Json) (e : Json) (w2 : WireOutcome)
    (hfind : entries.find? (fun x => nameIs x "bc_credentials") = some e)
    (h2 : oracle ⟨"PUT", "/vault/" ++ optIdToString (e.lookup "id")⟩ = .wire w2)
    (hw2 : (FdxClient.request w2).success = true) :
    FdxService.createOrUpdateVaultEntry st oracle entries =
      (.ok (okEnv (FdxClient.request w2).data),
       [⟨"PUT", "/vault/" ++ optIdToString (e.lookup "id")⟩]) := by
  simp [FdxService.createOrUpdateVaultEntry, FdxClient.updateVault, performRequest, bindCall,
    hfind, h2, hw2, okEnv]

/-- C5: when a matching import or export exists, the update call is
issued against the existing identifier and the success payload is the
pre-existing record (not the update response body); when a matching
vault entry exists, the update call is issued and the success payload is
the update response body. -/
theorem C5_update_branch_payloads :
    (∀ (st : ClientState) (oracle : Oracle) (d : String) (w1 w2 : WireOutcome)
        (l : List Json) (e : Json),
      st.dbId = some d → d ≠ "" →
      oracle ⟨"GET", "/dbs/" ++ d ++ "/imports"⟩ = .wire w1 →
      (FdxClient.request w1).success = true →
      (FdxClient.request w1).data = some (.arr l) →
      l.find? (fun i => nameIs i "BigCommerceImport") = some e →
      jsTruthy e = true →
      oracle ⟨"PUT", "/dbs/" ++ d ++ "/imports/" ++ optIdToString (e.lookup "id")⟩ =
        .wire w2 →
      (FdxClient.request w2).success = true →
      FdxService.createOrUpdateImport st oracle =
        (.ok (okEnv (some e)),
         [⟨"GET", "/dbs/" ++ d ++ "/imports"⟩,
          ⟨"PUT", "/dbs/" ++ d ++ "/imports/" ++ optIdToString (e.lookup "id")⟩]))
  ∧ (∀ (st : ClientState) (oracle : Oracle) (d : String) (w1 w2 : WireOutcome)
        (l : List Json) (e : Json),
      st.dbId = some d → d ≠ "" →
      oracle ⟨"GET", "/dbs/" ++ d ++ "/exports"⟩ = .wire w1 →
      (FdxClient.request w1).success = true →
      (FdxClient.request w1).data = some (.arr l) →
      l.find? (fun i => nameIs i "Export Google") = some e →
      jsTruthy e = true →
      oracle ⟨"PUT", "/dbs/" ++ d ++ "/exports/" ++ optIdToString (e.lookup "id")⟩ =
        .wire w2 →
      (FdxClient.request w2).success = true →
      FdxService.createOrUpdateExport st oracle false =
        (.ok (okEnv (some e)),
         [⟨"GET", "/dbs/" ++ d ++ "/exports"⟩,
          ⟨"PUT", "/dbs/" ++ d ++ "/exports/" ++ optIdToString (e.lookup "id")⟩]))
  ∧ (∀ (st : ClientState) (oracle : Oracle) (entries : List Json) (e : Json)
        (w2 : WireOutcome),
      entries.find? (fun x => nameIs x "bc_credentials") = some e →
      oracle ⟨"PUT", "/vault/" ++ optIdToString (e.lookup "id")⟩ = .wire w2 →
      (FdxClient.request w2).success = true →
      FdxService.createOrUpdateVaultEntry st oracle entries =
        (.ok (okEnv (FdxClient.request w2).data),
         [⟨"PUT", "/vault/" ++ optIdToString (e.lookup "id")⟩])) :=
  ⟨createOrUpdateImport_found_updates, createOrUpdateExport_found_updates,
   createOrUpdateVaultEntry_found_updates⟩

/-- C5 witness: the vault update branch at a concrete existing entry —
the payload is the update response body. -/
theorem C5_update_branch_payloads_witness :
    FdxService.createOrUpdateVaultEntry stDb7 vaultUpdateOracle [bcEntry] =
      (.ok (okEnv (some (.obj [("updated", .bool true)]))),
       [⟨"PUT", "/vault/" ++ optIdToString (bcEntry.lookup "id")⟩]) :=
  C5_update_branch_payloads.2.2 stDb7 vaultUpdateOracle [bcEntry] bcEntry
    (.response { status := 200, body := .obj [("updated", .bool true)] }) rfl rfl rfl

/-- C9: when the group lookup succeeds but no group name starts with
`BC-`, `FdxService.moveDbToGroup` issues only the create-group call and
returns its payload as success; the move-database call
(`POST /groups/{id}/dbs`) is never issued, so the database is not placed
into the newly created group. -/
theorem C9_moveDbToGroup_createOnly (st : ClientState) (oracle : Oracle)
    (accountId accountName : String) (w1 w2 : WireOutcome) (l : List Json)
    (h1 : oracle ⟨"GET", "/accounts/" ++ accountId ++ "/groups"⟩ = .wire w1)
    (hw1 : (FdxClient.request w1).success = true)
    (hdata : (FdxClient.request w1).data = some (.arr l))
    (hfind : l.find? (fun g =>
        match g.lookup "name" with
        | some (.str s) => s.startsWith FdxService.accountNameStart
        | _ => false) = none)
    (h2 : oracle ⟨"POST", "/groups"⟩ = .wire w2)
    (hw2 : (FdxClient.request w2).success = true) :
    FdxService.moveDbToGroup st oracle accountId accountName =
      (.ok (okEnv (FdxClient.request w2).data),
       [⟨"GET", "/accounts/" ++ accountId ++ "/groups"⟩, ⟨"POST", "/groups"⟩]) := by
  simp [FdxService.moveDbToGroup, FdxService.findGroup, FdxClient.groups,
    FdxClient.createGroup, performRequest, bindCall, h1, hw1, hdata, hfind, okEnv,
    jsOptTruthy, h2, hw2]

/-- C9 witness: a concrete account with no groups. -/
theorem C9_moveDbToGroup_createOnly_witness :
    FdxService.moveDbToGroup stDb7 groupsEmptyOracle "1" "BC-1" =
      (.ok (okEnv (some (.obj [("id", .num 5)]))),
       [⟨"GET", "/accounts/" ++ "1" ++ "/groups"⟩, ⟨"POST", "/groups"⟩]) :=
  C9_moveDbToGroup_createOnly stDb7 groupsEmptyOracle "1" "BC-1"
    (.response { status := 200, body := .arr [] })
    (.response { status := 201, body := .obj [("id", .num 5)] }) []
    rfl rfl rfl rfl rfl rfl

end Fdx

namespace Fdx

/-! ### Step-failure behaviour of the composite workflow (helper lemmas) -/


theorem setup_accountFail (st : ClientState) (oracle : Oracle) (params : FdxService.SetupParams)
    (w1 : WireOutcome)
    (h1 : oracle ⟨"POST", "/bigcommerce/account"⟩ = .wire w1)
    (hw1 : (FdxClient.request w1).success = false) :
    FdxService.setupBigCommerceIntegration st oracle params =
      (failEnv ("Failed to create account: " ++ errStr (FdxClient.request w1)), st,
       [⟨"POST", "/bigcommerce/account"⟩]) := by
  simp [FdxService.setupBigCommerceIntegration, FdxService.setupInner,
    FdxClient.createBigCommerceAccount, performRequest, h1, hw1]

theorem setup_inviteFail (st : ClientState) (oracle : Oracle) (params : FdxService.SetupParams)
    (w1 w2 : WireOutcome)
    (hmail : FdxService.jsTruthyOptStr params.userEmail = true)
    (h1 : oracle ⟨"POST", "/bigcommerce/account"⟩ = .wire w1)
    (hw1 : (FdxClient.request w1).success = true)
    (haid : jsOptTruthy (jsonIndexOpt (FdxClient.request w1).data "id") = true)
    (h2 : oracle ⟨"POST", "/accounts/" ++
        optIdToString (jsonIndexOpt (FdxClient.request w1).data "id") ++
        "/user_account_permissions"⟩ = .wire w2)
    (hw2 : (FdxClient.request w2).success = false) :
    FdxService.setupBigCommerceIntegration st oracle params =
      (failEnv ("Failed to invite user: " ++ errStr (FdxClient.request w2)), st,
       [⟨"POST", "/bigcommerce/account"⟩,
        ⟨"POST", "/accounts/" ++ optIdToString (jsonIndexOpt (FdxClient.request w1).data "id") ++
          "/user_account_permissions"⟩]) := by
  simp [FdxService.setupBigCommerceIntegration, FdxService.setupInner,
    FdxClient.createBigCommerceAccount, FdxClient.invitePrimaryUser, performRequest,
    h1, hw1, haid, hmail, h2, hw2]

theorem setup_dbFail (st : ClientState) (oracle : Oracle) (params : FdxService.SetupParams)
    (w1 w3 : WireOutcome)
    (hmail : FdxService.jsTruthyOptStr params.userEmail = false)
    (h1 : oracle ⟨"POST", "/bigcommerce/account"⟩ = .wire w1)
    (hw1 : (FdxClient.request w1).success = true)
    (haid : jsOptTruthy (jsonIndexOpt (FdxClient.request w1).data "id") = true)
    (h3 : oracle ⟨"POST", "/accounts/" ++
        optIdToString (jsonIndexOpt (FdxClient.request w1).data "id") ++ "/dbs"⟩ = .wire w3)
    (hw3 : (FdxClient.request w3).success = false) :
    FdxService.setupBigCommerceIntegration st oracle params =
      (failEnv ("Failed to create database: " ++ errStr (FdxClient.request w3)), st,
       [⟨"POST", "/bigcommerce/account"⟩,
        ⟨"POST", "/accounts/" ++ optIdToString (jsonIndexOpt (FdxClient.request w1).data "id") ++
          "/dbs"⟩]) := by
  simp [FdxService.setupBigCommerceIntegration, FdxService.setupInner, FdxService.setupStep3,
    FdxClient.createBigCommerceAccount, FdxClient.createDb, performRequest,
    h1, hw1, haid, hmail, h3, hw3]



theorem setup_groupFail (st : ClientState) (oracle : Oracle) (params : FdxService.SetupParams)
    (w1 w3 w4 : WireOutcome)
    (hmail : FdxService.jsTruthyOptStr params.userEmail = false)
    (hgroup : FdxService.jsTruthyOptStr params.groupName = true)
    (h1 : oracle ⟨"POST", "/bigcommerce/account"⟩ = .wire w1)
    (hw1 : (FdxClient.request w1).success = true)
    (haid : jsOptTruthy (jsonIndexOpt (FdxClient.request w1).data "id") = true)
    (h3 : oracle ⟨"POST", "/accounts/" ++
        optIdToString (jsonIndexOpt (FdxClient.request w1).data "id") ++ "/dbs"⟩ = .wire w3)
    (hw3 : (FdxClient.request w3).success = true)
    (hdid : jsOptTruthy (jsonIndexOpt (FdxClient.request w3).data "id") = true)
    (h4 : oracle ⟨"POST", "/dbs/" ++
        optIdToString (jsonIndexOpt (FdxClient.request w3).data "id") ++
        "/move_db_to_db_group"⟩ = .wire w4)
    (hw4 : (FdxClient.request w4).success = false) :
    FdxService.setupBigCommerceIntegration st oracle params =
      (failEnv ("Failed to move database to group: " ++ errStr (FdxClient.request w4)),
       setDbId st (optIdToString (jsonIndexOpt (FdxClient.request w3).data "id")),
       [⟨"POST", "/bigcommerce/account"⟩,
        ⟨"POST", "/accounts/" ++ optIdToString (jsonIndexOpt (FdxClient.request w1).data "id") ++
          "/dbs"⟩,
        ⟨"POST", "/dbs/" ++ optIdToString (jsonIndexOpt (FdxClient.request w3).data "id") ++
          "/move_db_to_db_group"⟩]) := by
  simp [FdxService.setupBigCommerceIntegration, FdxService.setupInner, FdxService.setupStep3,
    FdxService.setupStep4, FdxClient.createBigCommerceAccount, FdxClient.createDb,
    FdxClient.moveDbintoNewDbGroup, performRequest,
    h1, hw1, haid, hmail, h3, hw3, hdid, hgroup, h4, hw4]

theorem setup_vaultFail (st : ClientState) (oracle : Oracle) (params : FdxService.SetupParams)
    (w1 w3 w5 : WireOutcome)
    (hmail : FdxService.jsTruthyOptStr params.userEmail = false)
    (hgroup : FdxService.jsTruthyOptStr params.groupName = false)
    (h1 : oracle ⟨"POST", "/bigcommerce/account"⟩ = .wire w1)
    (hw1 : (FdxClient.request w1).success = true)
    (haid : jsOptTruthy (jsonIndexOpt (FdxClient.request w1).data "id") = true)
    (h3 : oracle ⟨"POST", "/accounts/" ++
        optIdToString (jsonIndexOpt (FdxClient.request w1).data "id") ++ "/dbs"⟩ = .wire w3)
    (hw3 : (FdxClient.request w3).success = true)
    (hdid : jsOptTruthy (jsonIndexOpt (FdxClient.request w3).data "id") = true)
    (h5 : oracle ⟨"POST", "/dbs/" ++
        optIdToString (jsonIndexOpt (FdxClient.request w3).data "id") ++ "/vault"⟩ = .wire w5)
    (hw5 : (FdxClient.request w5).success = false) :
    FdxService.setupBigCommerceIntegration st oracle params =
      (failEnv ("Failed to create vault entry: " ++ errStr (FdxClient.request w5)),
       setDbId st (optIdToString (jsonIndexOpt (FdxClient.request w3).data "id")),
       [⟨"POST", "/bigcommerce/account"⟩,
        ⟨"POST", "/accounts/" ++ optIdToString (jsonIndexOpt (FdxClient.request w1).data "id") ++
          "/dbs"⟩,
        ⟨"POST", "/dbs/" ++ optIdToString (jsonIndexOpt (FdxClient.request w3).data "id") ++
          "/vault"⟩]) := by
  simp [FdxService.setupBigCommerceIntegration, FdxService.setupInner, FdxService.setupStep3,
    FdxService.setupStep4, FdxService.setupStep5, FdxClient.createBigCommerceAccount,
    FdxClient.createDb, FdxClient.addDbVaultEntry, performRequest,
    h1, hw1, haid, hmail, h3, hw3, hdid, hgroup, h5, hw5]



theorem setup_importFail (st : ClientState) (oracle : Oracle) (params : FdxService.SetupParams)
    (w1 w3 w5 w6 : WireOutcome)
    (hmail : FdxService.jsTruthyOptStr params.userEmail = false)
    (hgroup : FdxService.jsTruthyOptStr params.groupName = false)
    (h1 : oracle ⟨"POST", "/bigcommerce/account"⟩ = .wire w1)
    (hw1 : (FdxClient.request w1).success = true)
    (haid : jsOptTruthy (jsonIndexOpt (FdxClient.request w1).data "id") = true)
    (h3 : oracle ⟨"POST", "/accounts/" ++
        optIdToString (jsonIndexOpt (FdxClient.request w1).data "id") ++ "/dbs"⟩ = .wire w3)
    (hw3 : (FdxClient.request w3).success = true)
    (hdid : jsOptTruthy (jsonIndexOpt (FdxClient.request w3).data "id") = true)
    (hne : optIdToString (jsonIndexOpt (FdxClient.request w3).data "id") ≠ "")
    (h5 : oracle ⟨"POST", "/dbs/" ++
        optIdToString (jsonIndexOpt (FdxClient.request w3).data "id") ++ "/vault"⟩ = .wire w5)
    (hw5 : (FdxClient.request w5).success = true)
    (h6 : oracle ⟨"POST", "/dbs/" ++
        optIdToString (jsonIndexOpt (FdxClient.request w3).data "id") ++ "/imports"⟩ = .wire w6)
    (hw6 : (FdxClient.request w6).success = false) :
    FdxService.setupBigCommerceIntegration st oracle params =
      (failEnv ("Failed to create import: " ++ errStr (FdxClient.request w6)),
       setDbId st (optIdToString (jsonIndexOpt (FdxClient.request w3).data "id")),
       [⟨"POST", "/bigcommerce/account"⟩,
        ⟨"POST", "/accounts/" ++ optIdToString (jsonIndexOpt (FdxClient.request w1).data "id") ++
          "/dbs"⟩,
        ⟨"POST", "/dbs/" ++ optIdToString (jsonIndexOpt (FdxClient.request w3).data "id") ++
          "/vault"⟩,
        ⟨"POST", "/dbs/" ++ optIdToString (jsonIndexOpt (FdxClient.request w3).data "id") ++
          "/imports"⟩]) := by
  simp [FdxService.setupBigCommerceIntegration, FdxService.setupInner, FdxService.setupStep3,
    FdxService.setupStep4, FdxService.setupStep5, FdxService.setupStep6,
    FdxClient.createBigCommerceAccount, FdxClient.createDb, FdxClient.addDbVaultEntry,
    FdxClient.createImport, performRequest, setDbId, dbIdUnset, dbIdStr,
    h1, hw1, haid, hmail, h3, hw3, hdid, hne, hgroup, h5, hw5, h6, hw6]



theorem setup_scheduleFail (st : ClientState) (oracle : Oracle)
    (params : FdxService.SetupParams) (w1 w3 w5 w6 w7 : WireOutcome)
    (hmail : FdxService.jsTruthyOptStr params.userEmail = false)
    (hgroup : FdxService.jsTruthyOptStr params.groupName = false)
    (hsched : params.importSchedule = true)
    (h1 : oracle ⟨"POST", "/bigcommerce/account"⟩ = .wire w1)
    (hw1 : (FdxClient.request w1).success = true)
    (haid : jsOptTruthy (jsonIndexOpt (FdxClient.request w1).data "id") = true)
    (h3 : oracle ⟨"POST", "/accounts/" ++
        optIdToString (jsonIndexOpt (FdxClient.request w1).data "id") ++ "/dbs"⟩ = .wire w3)
    (hw3 : (FdxClient.request w3).success = true)
    (hdid : jsOptTruthy (jsonIndexOpt (FdxClient.request w3).data "id") = true)
    (hne : optIdToString (jsonIndexOpt (FdxClient.request w3).data "id") ≠ "")
    (h5 : oracle ⟨"POST", "/dbs/" ++
        optIdToString (jsonIndexOpt (FdxClient.request w3).data "id") ++ "/vault"⟩ = .wire w5)
    (hw5 : (FdxClient.request w5).success = true)
    (h6 : oracle ⟨"POST", "/dbs/" ++
        optIdToString (jsonIndexOpt (FdxClient.request w3).data "id") ++ "/imports"⟩ = .wire w6)
    (hw6 : (FdxClient.request w6).success = true)
    (hiid : jsOptTruthy (jsonIndexOpt (FdxClient.request w6).data "id") = true)
    (h7 : oracle ⟨"PUT", "/dbs/" ++
        optIdToString (jsonIndexOpt (FdxClient.request w3).data "id") ++ "/imports/" ++
        optIdToString (jsonIndexOpt (FdxClient.request w6).data "id") ++ "/schedule"⟩ =
      .wire w7)
    (hw7 : (FdxClient.request w7).success = false) :
    FdxService.setupBigCommerceIntegration st oracle params =
      (failEnv ("Failed to update import schedule: " ++ errStr (FdxClient.request w7)),
       setDbId st (optIdToString (jsonIndexOpt (FdxClient.request w3).data "id")),
       [⟨"POST", "/bigcommerce/account"⟩,
        ⟨"POST", "/accounts/" ++ optIdToString (jsonIndexOpt (FdxClient.request w1).data "id") ++
          "/dbs"⟩,
        ⟨"POST", "/dbs/" ++ optIdToString (jsonIndexOpt (FdxClient.request w3).data "id") ++
          "/vault"⟩,
        ⟨"POST", "/dbs/" ++ optIdToString (jsonIndexOpt (FdxClient.request w3).data "id") ++
          "/imports"⟩,
        ⟨"PUT", "/dbs/" ++ optIdToString (jsonIndexOpt (FdxClient.request w3).data "id") ++
          "/imports/" ++ optIdToString (jsonIndexOpt (FdxClient.request w6).data "id") ++
          "/schedule"⟩]) := by
  simp [FdxService.setupBigCommerceIntegration, FdxService.setupInner, FdxService.setupStep3,
    FdxService.setupStep4, FdxService.setupStep5, FdxService.setupStep6,
    FdxClient.createBigCommerceAccount, FdxClient.createDb, FdxClient.addDbVaultEntry,
    FdxClient.createImport, FdxClient.updateImportSchedule, performRequest, setDbId,
    dbIdUnset, dbIdStr,
    h1, hw1, haid, hmail, h3, hw3, hdid, hne, hgroup, h5, hw5, h6, hw6, hiid, hsched, h7, hw7]

theorem setup_templateFail (st : ClientState) (oracle : Oracle)
    (params : FdxService.SetupParams) (w1 w3 w5 w6 w8 : WireOutcome)
    (hmail : FdxService.jsTruthyOptStr params.userEmail = false)
    (hgroup : FdxService.jsTruthyOptStr params.groupName = false)
    (hsched : params.importSchedule = false)
    (htmpl : FdxService.jsTruthyOptStr params.buildTemplate = true)
    (h1 : oracle ⟨"POST", "/bigcommerce/account"⟩ = .wire w1)
    (hw1 : (FdxClient.request w1).success = true)
    (haid : jsOptTruthy (jsonIndexOpt (FdxClient.request w1).data "id") = true)
    (h3 : oracle ⟨"POST", "/accounts/" ++
        optIdToString (jsonIndexOpt (FdxClient.request w1).data "id") ++ "/dbs"⟩ = .wire w3)
    (hw3 : (FdxClient.request w3).success = true)
    (hdid : jsOptTruthy (jsonIndexOpt (FdxClient.request w3).data "id") = true)
    (hne : optIdToString (jsonIndexOpt (FdxClient.request w3).data "id") ≠ "")
    (h5 : oracle ⟨"POST", "/dbs/" ++
        optIdToString (jsonIndexOpt (FdxClient.request w3).data "id") ++ "/vault"⟩ = .wire w5)
    (hw5 : (FdxClient.request w5).success = true)
    (h6 : oracle ⟨"POST", "/dbs/" ++
        optIdToString (jsonIndexOpt (FdxClient.request w3).data "id") ++ "/imports"⟩ = .wire w6)
    (hw6 : (FdxClient.request w6).success = true)
    (hiid : jsOptTruthy (jsonIndexOpt (FdxClient.request w6).data "id") = true)
    (h8 : oracle ⟨"POST", "/dbs/" ++
        optIdToString (jsonIndexOpt (FdxClient.request w3).data "id") ++
        "/apply_automate_build_template"⟩ = .wire w8)
    (hw8 : (FdxClient.request w8).success = false) :
    FdxService.setupBigCommerceIntegration st oracle params =
      (failEnv ("Failed to apply build template: " ++ errStr (FdxClient.request w8)),
       setDbId st (optIdToString (jsonIndexOpt (FdxClient.request w3).data "id")),
       [⟨"POST", "/bigcommerce/account"⟩,
        ⟨"POST", "/accounts/" ++ optIdToString (jsonIndexOpt (FdxClient.request w1).data "id") ++
          "/dbs"⟩,
        ⟨"POST", "/dbs/" ++ optIdToString (jsonIndexOpt (FdxClient.request w3).data "id") ++
          "/vault"⟩,
        ⟨"POST", "/dbs/" ++ optIdToString (jsonIndexOpt (FdxClient.request w3).data "id") ++
          "/imports"⟩,
        ⟨"POST", "/dbs/" ++ optIdToString (jsonIndexOpt (FdxClient.request w3).data "id") ++
          "/apply_automate_build_template"⟩]) := by
  simp [FdxService.setupBigCommerceIntegration, FdxService.setupInner, FdxService.setupStep3,
    FdxService.setupStep4, FdxService.setupStep5, FdxService.setupStep6,
    FdxService.setupStep8, FdxClient.createBigCommerceAccount, FdxClient.createDb,
    FdxClient.addDbVaultEntry, FdxClient.createImport, FdxClient.applyAutomateBuildTemplate,
    performRequest, setDbId, dbIdUnset, dbIdStr,
    h1, hw1, haid, hmail, h3, hw3, hdid, hne, hgroup, h5, hw5, h6, hw6, hiid, hsched, htmpl,
    h8, hw8]


end Fdx

namespace Fdx

/-- C6: whichever step of `setupBigCommerceIntegration` first returns a
failure envelope, the workflow returns immediately with that step's
label prefixed to the error, and no subsequent step's remote call is
issued (the trace ends at the failing step); optional steps are skipped
when their parameter is absent. -/
theorem C6_setup_stepFailure_shortCircuit :
    (∀ (st : ClientState) (oracle : Oracle) (params : FdxService.SetupParams) (w1 : WireOutcome),
      oracle ⟨"POST", "/bigcommerce/account"⟩ = .wire w1 →
      (FdxClient.request w1).success = false →
      FdxService.setupBigCommerceIntegration st oracle params =
        (failEnv ("Failed to create account: " ++ errStr (FdxClient.request w1)), st,
         [⟨"POST", "/bigcommerce/account"⟩]))
  ∧ (∀ (st : ClientState) (oracle : Oracle) (params : FdxService.SetupParams) (w1 w2 : WireOutcome),
      FdxService.jsTruthyOptStr params.userEmail = true →
      oracle ⟨"POST", "/bigcommerce/account"⟩ = .wire w1 →
      (FdxClient.request w1).success = true →
      jsOptTruthy (jsonIndexOpt (FdxClient.request w1).data "id") = true →
      oracle ⟨"POST", "/accounts/" ++
          optIdToString (jsonIndexOpt (FdxClient.request w1).data "id") ++
          "/user_account_permissions"⟩ = .wire w2 →
      (FdxClient.request w2).success = false →
      FdxService.setupBigCommerceIntegration st oracle params =
        (failEnv ("Failed to invite user: " ++ errStr (FdxClient.request w2)), st,
         [⟨"POST", "/bigcommerce/account"⟩,
          ⟨"POST", "/accounts/" ++ optIdToString (jsonIndexOpt (FdxClient.request w1).data "id") ++
            "/user_account_permissions"⟩]))
  ∧ (∀ (st : ClientState) (oracle : Oracle) (params : FdxService.SetupParams) (w1 w3 : WireOutcome),
      FdxService.jsTruthyOptStr params.userEmail = false →
      oracle ⟨"POST", "/bigcommerce/account"⟩ = .wire w1 →
      (FdxClient.request w1).success = true →
      jsOptTruthy (jsonIndexOpt (FdxClient.request w1).data "id") = true →
      oracle ⟨"POST", "/accounts/" ++
          optIdToString (jsonIndexOpt (FdxClient.request w1).data "id") ++ "/dbs"⟩ = .wire w3 →
      (FdxClient.request w3).success = false →
      FdxService.setupBigCommerceIntegration st oracle params =
        (failEnv ("Failed to create database: " ++ errStr (FdxClient.request w3)), st,
         [⟨"POST", "/bigcommerce/account"⟩,
          ⟨"POST", "/accounts/" ++ optIdToString (jsonIndexOpt (FdxClient.request w1).data "id") ++
            "/dbs"⟩]))
  ∧ (∀ (st : ClientState) (oracle : Oracle) (params : FdxService.SetupParams) (w1 w3 w4 : WireOutcome),
      FdxService.jsTruthyOptStr params.userEmail = false →
      FdxService.jsTruthyOptStr params.groupName = true →
      oracle ⟨"POST", "/bigcommerce/account"⟩ = .wire w1 →
      (FdxClient.request w1).success = true →
      jsOptTruthy (jsonIndexOpt (FdxClient.request w1).data "id") = true →
      oracle ⟨"POST", "/accounts/" ++
          optIdToString (jsonIndexOpt (FdxClient.request w1).data "id") ++ "/dbs"⟩ = .wire w3 →
      (FdxClient.request w3).success = true →
      jsOptTruthy (jsonIndexOpt (FdxClient.request w3).data "id") = true →
      oracle ⟨"POST", "/dbs/" ++
          optIdToString (jsonIndexOpt (FdxClient.request w3).data "id") ++
          "/move_db_to_db_group"⟩ = .wire w4 →
      (FdxClient.request w4).success = false →
      FdxService.setupBigCommerceIntegration st oracle params =
        (failEnv ("Failed to move database to group: " ++ errStr (FdxClient.request w4)),
         setDbId st (optIdToString (jsonIndexOpt (FdxClient.request w3).data "id")),
         [⟨"POST", "/bigcommerce/account"⟩,
          ⟨"POST", "/accounts/" ++ optIdToString (jsonIndexOpt (FdxClient.request w1).data "id") ++
            "/dbs"⟩,
          ⟨"POST", "/dbs/" ++ optIdToString (jsonIndexOpt (FdxClient.request w3).data "id") ++
            "/move_db_to_db_group"⟩]))
  ∧ (∀ (st : ClientState) (oracle : Oracle) (params : FdxService.SetupParams) (w1 w3 w5 : WireOutcome),
      FdxService.jsTruthyOptStr params.userEmail = false →
      FdxService.jsTruthyOptStr params.groupName = false →
      oracle ⟨"POST", "/bigcommerce/account"⟩ = .wire w1 →
      (FdxClient.request w1).success = true →
      jsOptTruthy (jsonIndexOpt (FdxClient.request w1).data "id") = true →
      oracle ⟨"POST", "/accounts/" ++
          optIdToString (jsonIndexOpt (FdxClient.request w1).data "id") ++ "/dbs"⟩ = .wire w3 →
      (FdxClient.request w3).success = true →
      jsOptTruthy (jsonIndexOpt (FdxClient.request w3).data "id") = true →
      oracle ⟨"POST", "/dbs/" ++
          optIdToString (jsonIndexOpt (FdxClient.request w3).data "id") ++ "/vault"⟩ = .wire w5 →
      (FdxClient.request w5).success = false →
      FdxService.setupBigCommerceIntegration st oracle params =
        (failEnv ("Failed to create vault entry: " ++ errStr (FdxClient.request w5)),
         setDbId st (optIdToString (jsonIndexOpt (FdxClient.request w3).data "id")),
         [⟨"POST", "/bigcommerce/account"⟩,
          ⟨"POST", "/accounts/" ++ optIdToString (jsonIndexOpt (FdxClient.request w1).data "id") ++
            "/dbs"⟩,
          ⟨"POST", "/dbs/" ++ optIdToString (jsonIndexOpt (FdxClient.request w3).data "id") ++
            "/vault"⟩]))
  ∧ (∀ (st : ClientState) (oracle : Oracle) (params : FdxService.SetupParams) (w1 w3 w5 w6 : WireOutcome),
      FdxService.jsTruthyOptStr params.userEmail = false →
      FdxService.jsTruthyOptStr params.groupName = false →
      oracle ⟨"POST", "/bigcommerce/account"⟩ = .wire w1 →
      (FdxClient.request w1).success = true →
      jsOptTruthy (jsonIndexOpt (FdxClient.request w1).data "id") = true →
      oracle ⟨"POST", "/accounts/" ++
          optIdToString (jsonIndexOpt (FdxClient.request w1).data "id") ++ "/dbs"⟩ = .wire w3 →
      (FdxClient.request w3).success = true →
      jsOptTruthy (jsonIndexOpt (FdxClient.request w3).data "id") = true →
      optIdToString (jsonIndexOpt (FdxClient.request w3).data "id") ≠ "" →
      oracle ⟨"POST", "/dbs/" ++
          optIdToString (jsonIndexOpt (FdxClient.request w3).data "id") ++ "/vault"⟩ = .wire w5 →
      (FdxClient.request w5).success = true →
      oracle ⟨"POST", "/dbs/" ++
          optIdToString (jsonIndexOpt (FdxClient.request w3).data "id") ++ "/imports"⟩ = .wire w6 →
      (FdxClient.request w6).success = false →
      FdxService.setupBigCommerceIntegration st oracle params =
        (failEnv ("Failed to create import: " ++ errStr (FdxClient.request w6)),
         setDbId st (optIdToString (jsonIndexOpt (FdxClient.request w3).data "id")),
         [⟨"POST", "/bigcommerce/account"⟩,
          ⟨"POST", "/accounts/" ++ optIdToString (jsonIndexOpt (FdxClient.request w1).data "id") ++
            "/dbs"⟩,
          ⟨"POST", "/dbs/" ++ optIdToString (jsonIndexOpt (FdxClient.request w3).data "id") ++
            "/vault"⟩,
          ⟨"POST", "/dbs/" ++ optIdToString (jsonIndexOpt (FdxClient.request w3).data "id") ++
            "/imports"⟩]))
  ∧ (∀ (st : ClientState) (oracle : Oracle) (params : FdxService.SetupParams) (w1 w3 w5 w6 w7 : WireOutcome),
      FdxService.jsTruthyOptStr params.userEmail = false →
      FdxService.jsTruthyOptStr params.groupName = false →
      params.importSchedule = true →
      oracle ⟨"POST", "/bigcommerce/account"⟩ = .wire w1 →
      (FdxClient.request w1).success = true →
      jsOptTruthy (jsonIndexOpt (FdxClient.request w1).data "id") = true →
      oracle ⟨"POST", "/accounts/" ++
          optIdToString (jsonIndexOpt (FdxClient.request w1).data "id") ++ "/dbs"⟩ = .wire w3 →
      (FdxClient.request w3).success = true →
      jsOptTruthy (jsonIndexOpt (FdxClient.request w3).data "id") = true →
      optIdToString (jsonIndexOpt (FdxClient.request w3).data "id") ≠ "" →
      oracle ⟨"POST", "/dbs/" ++
          optIdToString (jsonIndexOpt (FdxClient.request w3).data "id") ++ "/vault"⟩ = .wire w5 →
      (FdxClient.request w5).success = true →
      oracle ⟨"POST", "/dbs/" ++
          optIdToString (jsonIndexOpt (FdxClient.request w3).data "id") ++ "/imports"⟩ = .wire w6 →
      (FdxClient.request w6).success = true →
      jsOptTruthy (jsonIndexOpt (FdxClient.request w6).data "id") = true →
      oracle ⟨"PUT", "/dbs/" ++
          optIdToString (jsonIndexOpt (FdxClient.request w3).data "id") ++ "/imports/" ++
          optIdToString (jsonIndexOpt (FdxClient.request w6).data "id") ++ "/schedule"⟩ =
        .wire w7 →
      (FdxClient.request w7).success = false →
      FdxService.setupBigCommerceIntegration st oracle params =
        (failEnv ("Failed to update import schedule: " ++ errStr (FdxClient.request w7)),
         setDbId st (optIdToString (jsonIndexOpt (FdxClient.request w3).data "id")),
         [⟨"POST", "/bigcommerce/account"⟩,
          ⟨"POST", "/accounts/" ++ optIdToString (jsonIndexOpt (FdxClient.request w1).data "id") ++
            "/dbs"⟩,
          ⟨"POST", "/dbs/" ++ optIdToString (jsonIndexOpt (FdxClient.request w3).data "id") ++
            "/vault"⟩,
          ⟨"POST", "/dbs/" ++ optIdToString (jsonIndexOpt (FdxClient.request w3).data "id") ++
            "/imports"⟩,
          ⟨"PUT", "/dbs/" ++ optIdToString (jsonIndexOpt (FdxClient.request w3).data "id") ++
            "/imports/" ++ optIdToString (jsonIndexOpt (FdxClient.request w6).data "id") ++
            "/schedule"⟩]))
  ∧ (∀ (st : ClientState) (oracle : Oracle) (params : FdxService.SetupParams) (w1 w3 w5 w6 w8 : WireOutcome),
      FdxService.jsTruthyOptStr params.userEmail = false →
      FdxService.jsTruthyOptStr params.groupName = false →
      params.importSchedule = false →
      FdxService.jsTruthyOptStr params.buildTemplate = true →
      oracle ⟨"POST", "/bigcommerce/account"⟩ = .wire w1 →
      (FdxClient.request w1).success = true →
      jsOptTruthy (jsonIndexOpt (FdxClient.request w1).data "id") = true →
      oracle ⟨"POST", "/accounts/" ++
          optIdToString (jsonIndexOpt (FdxClient.request w1).data "id") ++ "/dbs"⟩ = .wire w3 →
      (FdxClient.request w3).success = true →
      jsOptTruthy (jsonIndexOpt (FdxClient.request w3).data "id") = true →
      optIdToString (jsonIndexOpt (FdxClient.request w3).data "id") ≠ "" →
      oracle ⟨"POST", "/dbs/" ++
          optIdToString (jsonIndexOpt (FdxClient.request w3).data "id") ++ "/vault"⟩ = .wire w5 →
      (FdxClient.request w5).success = true →
      oracle ⟨"POST", "/dbs/" ++
          optIdToString (jsonIndexOpt (FdxClient.request w3).data "id") ++ "/imports"⟩ = .wire w6 →
      (FdxClient.request w6).success = true →
      jsOptTruthy (jsonIndexOpt (FdxClient.request w6).data "id") = true →
      oracle ⟨"POST", "/dbs/" ++
          optIdToString (jsonIndexOpt (FdxClient.request w3).data "id") ++
          "/apply_automate_build_template"⟩ = .wire w8 →
      (FdxClient.request w8).success = false →
      FdxService.setupBigCommerceIntegration st oracle params =
        (failEnv ("Failed to apply build template: " ++ errStr (FdxClient.request w8)),
         setDbId st (optIdToString (jsonIndexOpt (FdxClient.request w3).data "id")),
         [⟨"POST", "/bigcommerce/account"⟩,
          ⟨"POST", "/accounts/" ++ optIdToString (jsonIndexOpt (FdxClient.request w1).data "id") ++
            "/dbs"⟩,
          ⟨"POST", "/dbs/" ++ optIdToString (jsonIndexOpt (FdxClient.request w3).data "id") ++
            "/vault"⟩,
          ⟨"POST", "/dbs/" ++ optIdToString (jsonIndexOpt (FdxClient.request w3).data "id") ++
            "/imports"⟩,
          ⟨"POST", "/dbs/" ++ optIdToString (jsonIndexOpt (FdxClient.request w3).data "id") ++
            "/apply_automate_build_template"⟩])) :=
  ⟨setup_accountFail, setup_inviteFail, setup_dbFail, setup_groupFail, setup_vaultFail,
   setup_importFail, setup_scheduleFail, setup_templateFail⟩

/-- C6 witness: account creation fails with a server message at a
concrete remote; the workflow stops after the first call. -/
theorem C6_setup_stepFailure_shortCircuit_witness :
    FdxService.setupBigCommerceIntegration stDb7 accountFailOracle setupParamsMin =
      (failEnv ("Failed to create account: " ++
        errStr (FdxClient.request
          (.response ⟨500, .obj [("message", .str "nope")]⟩))), stDb7,
       [⟨"POST", "/bigcommerce/account"⟩]) :=
  C6_setup_stepFailure_shortCircuit.1 stDb7 accountFailOracle setupParamsMin
    (.response ⟨500, .obj [("message", .str "nope")]⟩) rfl rfl

end Fdx

namespace Fdx

/-! ### Workflow state threading and the outermost catch (helper lemmas) -/


theorem setupStep8_state (st : ClientState) (oracle : Oracle) (params : FdxService.SetupParams)
    (aid did vaultId iid : Option Json) :
    (FdxService.setupStep8 st oracle params aid did vaultId iid).2.1 = st := by
  unfold FdxService.setupStep8
  repeat' split
  all_goals rfl

theorem setupStep6_state (st : ClientState) (oracle : Oracle) (params : FdxService.SetupParams)
    (aid did vaultId : Option Json) :
    (FdxService.setupStep6 st oracle params aid did vaultId).2.1 = st := by
  unfold FdxService.setupStep6
  repeat' split
  all_goals try rfl
  all_goals try dsimp only
  repeat' split
  all_goals try rfl
  all_goals simp_all [setupStep8_state]

theorem setupStep5_state (st : ClientState) (oracle : Oracle) (params : FdxService.SetupParams)
    (aid did : Option Json) (dbId : String) :
    (FdxService.setupStep5 st oracle params aid did dbId).2.1 = st := by
  unfold FdxService.setupStep5
  repeat' split
  all_goals try rfl
  all_goals try dsimp only
  repeat' split
  all_goals try rfl
  all_goals simp_all [setupStep6_state]

theorem setupStep4_state (st : ClientState) (oracle : Oracle) (params : FdxService.SetupParams)
    (aid did : Option Json) (dbId : String) :
    (FdxService.setupStep4 st oracle params aid did dbId).2.1 = st := by
  unfold FdxService.setupStep4
  repeat' split
  all_goals try rfl
  all_goals try dsimp only
  repeat' split
  all_goals try rfl
  all_goals
    first
    | exact setupStep5_state st oracle params aid did dbId
    | exact ((congrArg (fun p => p.2.1)
        (by assumption : FdxService.setupStep5 st oracle params aid did dbId = _)).symm).trans
        (setupStep5_state st oracle params aid did dbId)



theorem setup_dbId_persists_noEmail (st : ClientState) (oracle : Oracle)
    (params : FdxService.SetupParams) (w1 w3 : WireOutcome)
    (hmail : FdxService.jsTruthyOptStr params.userEmail = false)
    (h1 : oracle ⟨"POST", "/bigcommerce/account"⟩ = .wire w1)
    (hw1 : (FdxClient.request w1).success = true)
    (haid : jsOptTruthy (jsonIndexOpt (FdxClient.request w1).data "id") = true)
    (h3 : oracle ⟨"POST", "/accounts/" ++
        optIdToString (jsonIndexOpt (FdxClient.request w1).data "id") ++ "/dbs"⟩ = .wire w3)
    (hw3 : (FdxClient.request w3).success = true)
    (hdid : jsOptTruthy (jsonIndexOpt (FdxClient.request w3).data "id") = true) :
    (FdxService.setupBigCommerceIntegration st oracle params).2.1 =
      { apiToken := st.apiToken,
        dbId := some (optIdToString (jsonIndexOpt (FdxClient.request w3).data "id")),
        baseUrl := st.baseUrl, timeout := st.timeout, verbose := st.verbose } := by
  have hst := setupStep4_state
    (setDbId st (optIdToString (jsonIndexOpt (FdxClient.request w3).data "id"))) oracle params
    (jsonIndexOpt (FdxClient.request w1).data "id")
    (jsonIndexOpt (FdxClient.request w3).data "id")
    (optIdToString (jsonIndexOpt (FdxClient.request w3).data "id"))
  rcases h4 : FdxService.setupStep4
      (setDbId st (optIdToString (jsonIndexOpt (FdxClient.request w3).data "id"))) oracle params
      (jsonIndexOpt (FdxClient.request w1).data "id")
      (jsonIndexOpt (FdxClient.request w3).data "id")
      (optIdToString (jsonIndexOpt (FdxClient.request w3).data "id")) with ⟨r4, st4, t4⟩
  rw [h4] at hst
  simp only at hst
  simp [FdxService.setupBigCommerceIntegration, FdxService.setupInner, FdxService.setupStep3,
    FdxClient.createBigCommerceAccount, FdxClient.createDb, performRequest,
    h1, hw1, haid, hmail, h3, hw3, hdid, h4]
  subst hst
  cases r4 <;> simp [setDbId]



theorem setup_dbId_persists_email (st : ClientState) (oracle : Oracle)
    (params : FdxService.SetupParams) (w1 w2 w3 : WireOutcome)
    (hmail : FdxService.jsTruthyOptStr params.userEmail = true)
    (h1 : oracle ⟨"POST", "/bigcommerce/account"⟩ = .wire w1)
    (hw1 : (FdxClient.request w1).success = true)
    (haid : jsOptTruthy (jsonIndexOpt (FdxClient.request w1).data "id") = true)
    (h2 : oracle ⟨"POST", "/accounts/" ++
        optIdToString (jsonIndexOpt (FdxClient.request w1).data "id") ++
        "/user_account_permissions"⟩ = .wire w2)
    (hw2 : (FdxClient.request w2).success = true)
    (h3 : oracle ⟨"POST", "/accounts/" ++
        optIdToString (jsonIndexOpt (FdxClient.request w1).data "id") ++ "/dbs"⟩ = .wire w3)
    (hw3 : (FdxClient.request w3).success = true)
    (hdid : jsOptTruthy (jsonIndexOpt (FdxClient.request w3).data "id") = true) :
    (FdxService.setupBigCommerceIntegration st oracle params).2.1 =
      { apiToken := st.apiToken,
        dbId := some (optIdToString (jsonIndexOpt (FdxClient.request w3).data "id")),
        baseUrl := st.baseUrl, timeout := st.timeout, verbose := st.verbose } := by
  have hst := setupStep4_state
    (setDbId st (optIdToString (jsonIndexOpt (FdxClient.request w3).data "id"))) oracle params
    (jsonIndexOpt (FdxClient.request w1).data "id")
    (jsonIndexOpt (FdxClient.request w3).data "id")
    (optIdToString (jsonIndexOpt (FdxClient.request w3).data "id"))
  rcases h4 : FdxService.setupStep4
      (setDbId st (optIdToString (jsonIndexOpt (FdxClient.request w3).data "id"))) oracle params
      (jsonIndexOpt (FdxClient.request w1).data "id")
      (jsonIndexOpt (FdxClient.request w3).data "id")
      (optIdToString (jsonIndexOpt (FdxClient.request w3).data "id")) with ⟨r4, st4, t4⟩
  rw [h4] at hst
  simp only at hst
  simp [FdxService.setupBigCommerceIntegration, FdxService.setupInner, FdxService.setupStep3,
    FdxClient.createBigCommerceAccount, FdxClient.invitePrimaryUser, FdxClient.createDb,
    performRequest, h1, hw1, haid, hmail, h2, hw2, h3, hw3, hdid, h4]
  subst hst
  cases r4 <;> simp [setDbId]

theorem setup_catch_error (st : ClientState) (oracle : Oracle)
    (params : FdxService.SetupParams) (m : String) (st2 : ClientState) (t : List HttpRequest)
    (h : FdxService.setupInner st oracle params = (.error m, st2, t)) :
    FdxService.setupBigCommerceIntegration st oracle params =
      (failEnv ("BigCommerce setup failed: " ++ m), st2, t) := by
  simp [FdxService.setupBigCommerceIntegration, h]

theorem setup_catch_ok (st : ClientState) (oracle : Oracle)
    (params : FdxService.SetupParams) (env : ServiceResponse) (st2 : ClientState)
    (t : List HttpRequest)
    (h : FdxService.setupInner st oracle params = (.ok env, st2, t)) :
    FdxService.setupBigCommerceIntegration st oracle params = (env, st2, t) := by
  simp [FdxService.setupBigCommerceIntegration, h]

theorem setup_throw_step1 (st : ClientState) (oracle : Oracle)
    (params : FdxService.SetupParams) (m : String)
    (h : oracle ⟨"POST", "/bigcommerce/account"⟩ = .throwErr m) :
    FdxService.setupBigCommerceIntegration st oracle params =
      (failEnv ("BigCommerce setup failed: " ++ m), st,
       [⟨"POST", "/bigcommerce/account"⟩]) := by
  simp [FdxService.setupBigCommerceIntegration, FdxService.setupInner,
    FdxClient.createBigCommerceAccount, performRequest, h]


end Fdx

namespace Fdx

/-- C7: if any step inside `setupBigCommerceIntegration` raises an
exception rather than returning a failure envelope, the outermost
catch-all converts it into `{success:false, error:'BigCommerce setup
failed: ' + <message>}`; no exception ever propagates — every run of the
workflow produces an envelope (the caught conversion and the normal
envelope are the only two outcomes). -/
theorem C7_setup_catchAll :
    (∀ (st : ClientState) (oracle : Oracle) (params : FdxService.SetupParams) (m : String)
        (st2 : ClientState) (t : List HttpRequest),
      FdxService.setupInner st oracle params = (.error m, st2, t) →
      FdxService.setupBigCommerceIntegration st oracle params =
        (failEnv ("BigCommerce setup failed: " ++ m), st2, t))
  ∧ (∀ (st : ClientState) (oracle : Oracle) (params : FdxService.SetupParams)
        (env : ServiceResponse) (st2 : ClientState) (t : List HttpRequest),
      FdxService.setupInner st oracle params = (.ok env, st2, t) →
      FdxService.setupBigCommerceIntegration st oracle params = (env, st2, t))
  ∧ (∀ (st : ClientState) (oracle : Oracle) (params : FdxService.SetupParams) (m : String),
      oracle ⟨"POST", "/bigcommerce/account"⟩ = .throwErr m →
      FdxService.setupBigCommerceIntegration st oracle params =
        (failEnv ("BigCommerce setup failed: " ++ m), st,
         [⟨"POST", "/bigcommerce/account"⟩])) :=
  ⟨setup_catch_error, setup_catch_ok, setup_throw_step1⟩

/-- C7 witness: a first step that raises `Unexpected error` is converted
into the prefixed failure envelope (the scenario of the repository's own
test). -/
theorem C7_setup_catchAll_witness :
    FdxService.setupBigCommerceIntegration stDb7 throwingOracle setupParamsMin =
      (failEnv ("BigCommerce setup failed: " ++ "Unexpected error"), stDb7,
       [⟨"POST", "/bigcommerce/account"⟩]) :=
  C7_setup_catchAll.2.2 stDb7 throwingOracle setupParamsMin "Unexpected error" rfl

/-- C10: once database creation succeeds, the workflow sets the
session's active-database identifier to the new database's id, and this
mutation persists in the final client state whatever the remaining steps
do (in particular when a later step fails), while the auth token, base
endpoint, timeout and verbose flag are unchanged. -/
theorem C10_setup_dbId_mutation_persists :
    (∀ (st : ClientState) (oracle : Oracle) (params : FdxService.SetupParams)
        (w1 w3 : WireOutcome),
      FdxService.jsTruthyOptStr params.userEmail = false →
      oracle ⟨"POST", "/bigcommerce/account"⟩ = .wire w1 →
      (FdxClient.request w1).success = true →
      jsOptTruthy (jsonIndexOpt (FdxClient.request w1).data "id") = true →
      oracle ⟨"POST", "/accounts/" ++
          optIdToString (jsonIndexOpt (FdxClient.request w1).data "id") ++ "/dbs"⟩ = .wire w3 →
      (FdxClient.request w3).success = true →
      jsOptTruthy (jsonIndexOpt (FdxClient.request w3).data "id") = true →
      (FdxService.setupBigCommerceIntegration st oracle params).2.1 =
        { apiToken := st.apiToken,
          dbId := some (optIdToString (jsonIndexOpt (FdxClient.request w3).data "id")),
          baseUrl := st.baseUrl, timeout := st.timeout, verbose := st.verbose })
  ∧ (∀ (st : ClientState) (oracle : Oracle) (params : FdxService.SetupParams)
        (w1 w2 w3 : WireOutcome),
      FdxService.jsTruthyOptStr params.userEmail = true →
      oracle ⟨"POST", "/bigcommerce/account"⟩ = .wire w1 →
      (FdxClient.request w1).success = true →
      jsOptTruthy (jsonIndexOpt (FdxClient.request w1).data "id") = true →
      oracle ⟨"POST", "/accounts/" ++
          optIdToString (jsonIndexOpt (FdxClient.request w1).data "id") ++
          "/user_account_permissions"⟩ = .wire w2 →
      (FdxClient.request w2).success = true →
      oracle ⟨"POST", "/accounts/" ++
          optIdToString (jsonIndexOpt (FdxClient.request w1).data "id") ++ "/dbs"⟩ = .wire w3 →
      (FdxClient.request w3).success = true →
      jsOptTruthy (jsonIndexOpt (FdxClient.request w3).data "id") = true →
      (FdxService.setupBigCommerceIntegration st oracle params).2.1 =
        { apiToken := st.apiToken,
          dbId := some (optIdToString (jsonIndexOpt (FdxClient.request w3).data "id")),
          baseUrl := st.baseUrl, timeout := st.timeout, verbose := st.verbose }) :=
  ⟨setup_dbId_persists_noEmail, setup_dbId_persists_email⟩

/-- C10 witness: database `5` is created, the vault step then fails,
and the final client state still carries `dbId = some "5"` with every
other field untouched. -/
theorem C10_setup_dbId_mutation_persists_witness :
    (FdxService.setupBigCommerceIntegration stDb7 dbCreatedThenFailOracle setupParamsMin).2.1 =
      { apiToken := stDb7.apiToken, dbId := some "5", baseUrl := stDb7.baseUrl,
        timeout := stDb7.timeout, verbose := stDb7.verbose } :=
  C10_setup_dbId_mutation_persists.1 stDb7 dbCreatedThenFailOracle setupParamsMin
    (.response { status := 201, body := .obj [("id", .num 9)] })
    (.response { status := 201, body := .obj [("id", .num 5)] })
    rfl rfl rfl rfl rfl rfl rfl

end Fdx

namespace Fdx

theorem envInv_failEnv (m : String) : envInv (failEnv m) := by
  simp [envInv, failEnv]

theorem envInv_okEnv (d : Option Json) : envInv (okEnv d) := by
  simp [envInv, okEnv]

theorem envInv_processResponse (r : AxiosResponse) : envInv (processResponse r) := by
  unfold processResponse
  split <;> simp [envInv]

theorem envInv_request (w : WireOutcome) : envInv (FdxClient.request w) := by
  cases w with
  | response r =>
      by_cases h : 200 ≤ r.status ∧ r.status < 300 <;>
        simp [FdxClient.request, axiosSend, h, processResponse, envInv]
  | networkError m => simp [FdxClient.request, axiosSend, envInv]

theorem callInv_performRequest (oracle : Oracle) (m u : String) :
    callInv (performRequest oracle m u) := by
  unfold performRequest callInv
  cases oracle { method := m, url := u } with
  | wire w => exact envInv_request w
  | throwErr s => trivial

theorem callInv_guard (st : ClientState) (oracle : Oracle) (m u : String) :
    callInv (if dbIdUnset st then
      ((.ok dbIdRequiredError : Except String ServiceResponse), ([] : List HttpRequest))
    else performRequest oracle m u) := by
  split
  · exact envInv_failEnv _
  · exact callInv_performRequest _ _ _

theorem callInv_bindCall (x : Except String ServiceResponse × List HttpRequest)
    (k : ServiceResponse → Except String ServiceResponse × List HttpRequest)
    (hx : callInv x) (hk : ∀ r, envInv r → callInv (k r)) :
    callInv (bindCall x k) := by
  rcases x with ⟨rx, tx⟩
  cases rx with
  | error m => exact hx
  | ok r =>
      have hr : envInv r := hx
      have := hk r hr
      unfold bindCall
      rcases hkr : k r with ⟨r2, t2⟩
      rw [hkr] at this
      show callInv
        (match k r with
         | (r2, t2) => (r2, tx ++ t2))
      rw [hkr]
      exact this

end Fdx

namespace Fdx

theorem callInv_retrieveAccounts (st : ClientState) (oracle : Oracle) :
    callInv (FdxService.retrieveAccounts st oracle) := by
  unfold FdxService.retrieveAccounts
  apply callInv_bindCall _ _ (callInv_performRequest _ _ _)
  intro r _
  split
  · exact envInv_failEnv _
  · exact envInv_okEnv _

theorem callInv_createAccount (st : ClientState) (oracle : Oracle) (accountName : String) :
    callInv (FdxService.createAccount st oracle accountName) := by
  unfold FdxService.createAccount
  apply callInv_bindCall _ _ (callInv_performRequest _ _ _)
  intro r _
  split
  · exact envInv_failEnv _
  · exact envInv_okEnv _

theorem callInv_getOrCreateAccount (st : ClientState) (oracle : Oracle) (storeId : String) :
    callInv (FdxService.getOrCreateAccount st oracle storeId) := by
  unfold FdxService.getOrCreateAccount
  apply callInv_bindCall _ _ (callInv_retrieveAccounts _ _)
  intro r hr
  split
  · exact hr
  · dsimp only
    split
    · exact envInv_okEnv _
    · exact callInv_createAccount _ _ _

theorem callInv_findGroup (st : ClientState) (oracle : Oracle) (accountId : String) :
    callInv (FdxService.findGroup st oracle accountId) := by
  unfold FdxService.findGroup
  apply callInv_bindCall _ _ (callInv_performRequest _ _ _)
  intro r _
  split
  · exact envInv_failEnv _
  · exact envInv_okEnv _

theorem callInv_moveDbToGroup (st : ClientState) (oracle : Oracle)
    (accountId accountName : String) :
    callInv (FdxService.moveDbToGroup st oracle accountId accountName) := by
  unfold FdxService.moveDbToGroup
  apply callInv_bindCall _ _ (callInv_findGroup _ _ _)
  intro r hr
  split
  · exact hr
  · apply callInv_bindCall
    · split
      · exact callInv_performRequest _ _ _
      · exact callInv_performRequest _ _ _
    · intro r2 _
      split
      · exact envInv_failEnv _
      · exact envInv_okEnv _

theorem callInv_createOrUpdateVaultEntry (st : ClientState) (oracle : Oracle)
    (entries : List Json) :
    callInv (FdxService.createOrUpdateVaultEntry st oracle entries) := by
  unfold FdxService.createOrUpdateVaultEntry
  apply callInv_bindCall
  · split
    · exact callInv_performRequest _ _ _
    · exact callInv_performRequest _ _ _
  · intro r _
    split
    · exact envInv_failEnv _
    · exact envInv_okEnv _

end Fdx

namespace Fdx

theorem deleteOldEntry_inv (st : ClientState) (oracle : Oracle) (entries : List Json) :
    (match (FdxService.deleteOldEntry st oracle entries).1 with
     | .ok (some r) => envInv r
     | _ => True) := by
  unfold FdxService.deleteOldEntry
  rcases hfind : entries.find? (fun e => nameIs e "BigCommerce Credentials") with _ | oldEntry
  · simp
  · rcases hdel : FdxClient.deleteVault st oracle (optIdToString (oldEntry.lookup "id")) with
      ⟨m | result, t⟩
    · simp [hdel]
    · by_cases hs : (!result.success) = true
      · simp [hdel, hs, envInv_failEnv]
      · simp [hdel, hs, envInv_okEnv]

theorem callInv_updateVaultEntries (st : ClientState) (oracle : Oracle) :
    callInv (FdxService.updateVaultEntries st oracle) := by
  unfold FdxService.updateVaultEntries
  split
  · trivial
  · split
    · exact envInv_failEnv _
    · rename_i rv tv heqv hsucc
      dsimp only
      split
      · trivial
      · rename_i del tdel heqdel
        have hco := callInv_createOrUpdateVaultEntry st oracle (vaultRows rv.data)
        split
        · split
          · rename_i dr hfail
            have h := deleteOldEntry_inv st oracle (vaultRows rv.data)
            rw [heqdel] at h
            exact h
          · exact hco
        · exact hco

end Fdx

namespace Fdx

theorem callInv_retrieveImport (st : ClientState) (oracle : Oracle) :
    callInv (FdxService.retrieveImport st oracle) := by
  unfold FdxService.retrieveImport
  apply callInv_bindCall _ _ (callInv_guard _ _ _ _)
  intro r _
  split
  · exact envInv_failEnv _
  · exact envInv_okEnv _

theorem callInv_createOrUpdateImport (st : ClientState) (oracle : Oracle) :
    callInv (FdxService.createOrUpdateImport st oracle) := by
  unfold FdxService.createOrUpdateImport
  apply callInv_bindCall _ _ (callInv_retrieveImport _ _)
  intro r _
  split
  · apply callInv_bindCall _ _ (callInv_guard _ _ _ _)
    intro r2 _
    split
    · exact envInv_failEnv _
    · exact envInv_okEnv _
  · apply callInv_bindCall _ _ (callInv_guard _ _ _ _)
    intro r2 _
    split
    · exact envInv_failEnv _
    · exact envInv_okEnv _

theorem callInv_getExistingExport (st : ClientState) (oracle : Oracle) :
    callInv (FdxService.getExistingExport st oracle) := by
  unfold FdxService.getExistingExport
  apply callInv_bindCall _ _ (callInv_guard _ _ _ _)
  intro r _
  split
  · exact envInv_failEnv _
  · exact envInv_okEnv _

theorem callInv_handleExistingExport (st : ClientState) (oracle : Oracle)
    (existingExport : Option Json) :
    callInv (FdxService.handleExistingExport st oracle existingExport) := by
  unfold FdxService.handleExistingExport
  split
  · apply callInv_bindCall _ _ (callInv_guard _ _ _ _)
    intro r _
    split
    · exact envInv_failEnv _
    · exact envInv_okEnv _
  · apply callInv_bindCall _ _ (callInv_guard _ _ _ _)
    intro r _
    split
    · exact envInv_failEnv _
    · exact envInv_okEnv _

theorem callInv_runExportSchedule (st : ClientState) (oracle : Oracle)
    (exportData : Option Json) :
    callInv (FdxService.runExportSchedule st oracle exportData) := by
  unfold FdxService.runExportSchedule
  apply callInv_bindCall _ _ (callInv_guard _ _ _ _)
  intro r _
  split
  · exact envInv_failEnv _
  · exact envInv_okEnv _

theorem callInv_createOrUpdateExport (st : ClientState) (oracle : Oracle)
    (hasTimeSlot : Bool) :
    callInv (FdxService.createOrUpdateExport st oracle hasTimeSlot) := by
  unfold FdxService.createOrUpdateExport
  apply callInv_bindCall _ _ (callInv_getExistingExport _ _)
  intro r _
  split
  · exact envInv_failEnv _
  · apply callInv_bindCall _ _ (callInv_handleExistingExport _ _ _)
    intro r2 hr2
    split
    · exact envInv_failEnv _
    · split
      · exact callInv_runExportSchedule _ _ _
      · exact hr2

theorem callInv_serviceCreateDb (st : ClientState) (oracle : Oracle) (accountId : String) :
    callInv (FdxService.createDb st oracle accountId) := by
  unfold FdxService.createDb
  apply callInv_bindCall _ _ (callInv_performRequest _ _ _)
  intro r _
  split
  · exact envInv_failEnv _
  · exact envInv_okEnv _

theorem callInv_serviceDeleteDb (st : ClientState) (oracle : Oracle) (dbId : String) :
    callInv (FdxService.deleteDb st oracle dbId) := by
  unfold FdxService.deleteDb
  apply callInv_bindCall _ _ (callInv_performRequest _ _ _)
  intro r _
  split
  · exact envInv_failEnv _
  · exact envInv_okEnv _

theorem callInv_getFtpCredentials (st : ClientState) (oracle : Oracle) :
    callInv (FdxService.getFtpCredentials st oracle) := by
  unfold FdxService.getFtpCredentials
  apply callInv_bindCall _ _ (callInv_guard _ _ _ _)
  intro r _
  split
  · exact envInv_failEnv _
  · split
    · exact envInv_okEnv _
    · apply callInv_bindCall _ _ (callInv_guard _ _ _ _)
      intro r2 _
      split
      · exact envInv_failEnv _
      · exact envInv_okEnv _

theorem callInv_serviceCreateJoinImport (st : ClientState) (oracle : Oracle) :
    callInv (FdxService.createJoinImport st oracle) := by
  unfold FdxService.createJoinImport
  apply callInv_bindCall _ _ (callInv_guard _ _ _ _)
  intro r _
  split
  · exact envInv_failEnv _
  · exact envInv_okEnv _

theorem callInv_serviceUpdateImportSchedule (st : ClientState) (oracle : Oracle)
    (importId : String) :
    callInv (FdxService.updateImportSchedule st oracle importId) := by
  unfold FdxService.updateImportSchedule
  apply callInv_bindCall _ _ (callInv_guard _ _ _ _)
  intro r _
  split
  · exact envInv_failEnv _
  · exact envInv_okEnv _

theorem callInv_createTransformersLoop (st : ClientState) (oracle : Oracle) (n : Nat)
    (acc : List Json) :
    callInv (FdxService.createTransformersLoop st oracle n acc) := by
  induction n generalizing acc with
  | zero => simp [FdxService.createTransformersLoop, callInv, envInv]
  | succ n ih =>
      unfold FdxService.createTransformersLoop
      split
      · trivial
      · rename_i result t heq
        split
        · exact envInv_failEnv _
        · have h := ih (result.data.getD .null :: acc)
          split
          rename_i r2 t2 heq2
          rw [heq2] at h
          exact h

theorem callInv_updateDbFieldsLoop (st : ClientState) (oracle : Oracle) (n : Nat)
    (acc : List Json) :
    callInv (FdxService.updateDbFieldsLoop st oracle n acc) := by
  induction n generalizing acc with
  | zero => simp [FdxService.updateDbFieldsLoop, callInv, envInv]
  | succ n ih =>
      unfold FdxService.updateDbFieldsLoop
      split
      · trivial
      · rename_i result t heq
        split
        · exact envInv_failEnv _
        · have h := ih (result.data.getD .null :: acc)
          split
          rename_i r2 t2 heq2
          rw [heq2] at h
          exact h

theorem callInv_runImport (st : ClientState) (oracle : Oracle) (importId : String) :
    callInv (FdxService.runImport st oracle importId) := by
  unfold FdxService.runImport
  split
  · exact envInv_failEnv _
  · apply callInv_bindCall _ _ (callInv_performRequest _ _ _)
    intro r _
    split
    · exact envInv_failEnv _
    · exact envInv_okEnv _

theorem callInv_runExport (st : ClientState) (oracle : Oracle) (exportId : String) :
    callInv (FdxService.runExport st oracle exportId) := by
  unfold FdxService.runExport
  split
  · exact envInv_failEnv _
  · apply callInv_bindCall _ _ (callInv_performRequest _ _ _)
    intro r _
    split
    · exact envInv_failEnv _
    · exact envInv_okEnv _

end Fdx

namespace Fdx

theorem setupStep8_inv (st : ClientState) (oracle : Oracle) (params : FdxService.SetupParams)
    (aid did vaultId iid : Option Json) :
    setupCallInv (FdxService.setupStep8 st oracle params aid did vaultId iid) := by
  unfold FdxService.setupStep8
  split
  · split
    · trivial
    · split
      · exact envInv_failEnv _
      · exact envInv_okEnv _
  · exact envInv_okEnv _

theorem setupStep6_inv (st : ClientState) (oracle : Oracle) (params : FdxService.SetupParams)
    (aid did vaultId : Option Json) :
    setupCallInv (FdxService.setupStep6 st oracle params aid did vaultId) := by
  unfold FdxService.setupStep6
  split
  · trivial
  · rename_i importResult t heq
    dsimp only
    split
    · exact envInv_failEnv _
    · split
      · split
        · trivial
        · rename_i scheduleResult t2 heq2
          split
          · exact envInv_failEnv _
          · have h := setupStep8_inv st oracle params aid did vaultId
              (jsonIndexOpt importResult.data "id")
            exact h
      · have h := setupStep8_inv st oracle params aid did vaultId
          (jsonIndexOpt importResult.data "id")
        exact h

theorem setupStep5_inv (st : ClientState) (oracle : Oracle) (params : FdxService.SetupParams)
    (aid did : Option Json) (dbId : String) :
    setupCallInv (FdxService.setupStep5 st oracle params aid did dbId) := by
  unfold FdxService.setupStep5
  split
  · trivial
  · rename_i vaultResult t heq
    split
    · exact envInv_failEnv _
    · dsimp only
      have h := setupStep6_inv st oracle params aid did
        (jsonIndexOpt (jsonIndexOpt vaultResult.data "data") "new_row_id")
      exact h

theorem setupStep4_inv (st : ClientState) (oracle : Oracle) (params : FdxService.SetupParams)
    (aid did : Option Json) (dbId : String) :
    setupCallInv (FdxService.setupStep4 st oracle params aid did dbId) := by
  unfold FdxService.setupStep4
  split
  · split
    · trivial
    · split
      · exact envInv_failEnv _
      · have h := setupStep5_inv st oracle params aid did dbId
        exact h
  · exact setupStep5_inv st oracle params aid did dbId

theorem setupStep3_inv (st : ClientState) (oracle : Oracle) (params : FdxService.SetupParams)
    (accountId : String) (aid : Option Json) :
    setupCallInv (FdxService.setupStep3 st oracle params accountId aid) := by
  unfold FdxService.setupStep3
  split
  · trivial
  · rename_i dbResult t heq
    dsimp only
    split
    · exact envInv_failEnv _
    · have h := setupStep4_inv (setDbId st (optIdToString (jsonIndexOpt dbResult.data "id")))
        oracle params aid (jsonIndexOpt dbResult.data "id")
        (optIdToString (jsonIndexOpt dbResult.data "id"))
      exact h

theorem setupInner_inv (st : ClientState) (oracle : Oracle) (params : FdxService.SetupParams) :
    setupCallInv (FdxService.setupInner st oracle params) := by
  unfold FdxService.setupInner
  split
  · trivial
  · rename_i accountResult t heq
    dsimp only
    split
    · exact envInv_failEnv _
    · split
      · split
        · trivial
        · rename_i inviteResult t2 heq2
          split
          · exact envInv_failEnv _
          · have h := setupStep3_inv st oracle params
              (optIdToString (jsonIndexOpt accountResult.data "id"))
              (jsonIndexOpt accountResult.data "id")
            exact h
      · have h := setupStep3_inv st oracle params
          (optIdToString (jsonIndexOpt accountResult.data "id"))
          (jsonIndexOpt accountResult.data "id")
        exact h

theorem setup_inv (st : ClientState) (oracle : Oracle) (params : FdxService.SetupParams) :
    envInv (FdxService.setupBigCommerceIntegration st oracle params).1 := by
  unfold FdxService.setupBigCommerceIntegration
  have h := setupInner_inv st oracle params
  split
  · rename_i env st2 t heq
    rw [heq] at h
    exact h
  · exact envInv_failEnv _

end Fdx

namespace Fdx

/-- C8: every `Result` envelope returned by any public operation of
`FdxClient` or `FdxService` satisfies the envelope invariant: `success =
true` implies the `error` field is absent, and `success = false` implies
the `data` payload is absent and the `error` field is present.  The
first two conjuncts cover the two envelope constructors of the client
(`request` for any wire outcome, `processResponse` for any resolved
response); the following conjuncts cover every modelled client
operation (for every session state and oracle, a returned — non-raised
— envelope satisfies the invariant); the remaining conjuncts cover
every modelled service operation, including the composite
`setupBigCommerceIntegration`, whose result envelope always satisfies
the invariant. -/
theorem C8_envelope_invariant :
    (∀ (w : WireOutcome), envInv (FdxClient.request w)) ∧
    (∀ (r : AxiosResponse), envInv (processResponse r)) ∧
    (∀ (st : ClientState) (oracle : Oracle) (accountId : String),
      callInv (FdxClient.invitePrimaryUser st oracle accountId)) ∧
    (∀ (st : ClientState) (oracle : Oracle),
      callInv (FdxClient.applyAutomateBuildTemplate st oracle)) ∧
    (∀ (st : ClientState) (oracle : Oracle) (buildId : String),
      callInv (FdxClient.feedBuild st oracle buildId)) ∧
    (∀ (st : ClientState) (oracle : Oracle) (buildId : String),
      callInv (FdxClient.cancelBuild st oracle buildId)) ∧
    (∀ (st : ClientState) (oracle : Oracle), callInv (FdxClient.accounts st oracle)) ∧
    (∀ (st : ClientState) (oracle : Oracle) (accountId : String),
      callInv (FdxClient.createDb st oracle accountId)) ∧
    (∀ (st : ClientState) (oracle : Oracle) (dbId : String),
      callInv (FdxClient.deleteDb st oracle dbId)) ∧
    (∀ (st : ClientState) (oracle : Oracle), callInv (FdxClient.vault st oracle)) ∧
    (∀ (st : ClientState) (oracle : Oracle), callInv (FdxClient.createVault st oracle)) ∧
    (∀ (st : ClientState) (oracle : Oracle) (id : String),
      callInv (FdxClient.updateVault st oracle id)) ∧
    (∀ (st : ClientState) (oracle : Oracle) (id : String),
      callInv (FdxClient.deleteVault st oracle id)) ∧
    (∀ (st : ClientState) (oracle : Oracle), callInv (FdxClient.ftpAccounts st oracle)) ∧
    (∀ (st : ClientState) (oracle : Oracle), callInv (FdxClient.createFtpAccounts st oracle)) ∧
    (∀ (st : ClientState) (oracle : Oracle), callInv (FdxClient.imports st oracle)) ∧
    (∀ (st : ClientState) (oracle : Oracle), callInv (FdxClient.createImport st oracle)) ∧
    (∀ (st : ClientState) (oracle : Oracle) (importId : String),
      callInv (FdxClient.updateImport st oracle importId)) ∧
    (∀ (st : ClientState) (oracle : Oracle) (importId : String),
      callInv (FdxClient.updateImportSchedule st oracle importId)) ∧
    (∀ (st : ClientState) (oracle : Oracle), callInv (FdxClient.exports st oracle)) ∧
    (∀ (st : ClientState) (oracle : Oracle), callInv (FdxClient.createExport st oracle)) ∧
    (∀ (st : ClientState) (oracle : Oracle) (exportId : String),
      callInv (FdxClient.updateExport st oracle exportId)) ∧
    (∀ (st : ClientState) (oracle : Oracle) (exportId : String),
      callInv (FdxClient.scheduleExport st oracle exportId)) ∧
    (∀ (st : ClientState) (oracle : Oracle), callInv (FdxClient.transformers st oracle)) ∧
    (∀ (st : ClientState) (oracle : Oracle), callInv (FdxClient.createTransformer st oracle)) ∧
    (∀ (st : ClientState) (oracle : Oracle) (transformerId : String),
      callInv (FdxClient.updateTransformer st oracle transformerId)) ∧
    (∀ (st : ClientState) (oracle : Oracle), callInv (FdxClient.updateDbFields st oracle)) ∧
    (∀ (st : ClientState) (oracle : Oracle), callInv (FdxClient.createJoinImport st oracle)) ∧
    (∀ (st : ClientState) (oracle : Oracle), callInv (FdxClient.joinImports st oracle)) ∧
    (∀ (st : ClientState) (oracle : Oracle) (accountId : String),
      callInv (FdxClient.groups st oracle accountId)) ∧
    (∀ (st : ClientState) (oracle : Oracle), callInv (FdxClient.createGroup st oracle)) ∧
    (∀ (st : ClientState) (oracle : Oracle) (groupId : String),
      callInv (FdxClient.moveDbToGroup st oracle groupId)) ∧
    (∀ (st : ClientState) (oracle : Oracle),
      callInv (FdxClient.createBigCommerceAccount st oracle)) ∧
    (∀ (st : ClientState) (oracle : Oracle) (dbId : String),
      callInv (FdxClient.moveDbintoNewDbGroup st oracle dbId)) ∧
    (∀ (st : ClientState) (oracle : Oracle) (dbId : String),
      callInv (FdxClient.addDbVaultEntry st oracle dbId)) ∧
    (∀ (st : ClientState) (oracle : Oracle) (accountId : String),
      callInv (FdxClient.dbs st oracle accountId)) ∧
    (∀ (st : ClientState) (oracle : Oracle), callInv (FdxClient.login st oracle)) ∧
    (∀ (st : ClientState) (oracle : Oracle) (dbId : String),
      callInv (FdxClient.moveDbFromSourceToTargetDbGroup st oracle dbId)) ∧
    (∀ (st : ClientState) (oracle : Oracle) (dbId : String),
      callInv (FdxClient.dbFields st oracle dbId)) ∧
    (∀ (st : ClientState) (oracle : Oracle) (dbId fieldId : String),
      callInv (FdxClient.deleteDbField st oracle dbId fieldId)) ∧
    (∀ (st : ClientState) (oracle : Oracle), callInv (FdxService.retrieveAccounts st oracle)) ∧
    (∀ (st : ClientState) (oracle : Oracle) (accountName : String),
      callInv (FdxService.createAccount st oracle accountName)) ∧
    (∀ (st : ClientState) (oracle : Oracle) (storeId : String),
      callInv (FdxService.getOrCreateAccount st oracle storeId)) ∧
    (∀ (st : ClientState) (oracle : Oracle) (accountId : String),
      callInv (FdxService.findGroup st oracle accountId)) ∧
    (∀ (st : ClientState) (oracle : Oracle) (accountId accountName : String),
      callInv (FdxService.moveDbToGroup st oracle accountId accountName)) ∧
    (∀ (st : ClientState) (oracle : Oracle) (entries : List Json),
      match (FdxService.deleteOldEntry st oracle entries).1 with
      | .ok (some r) => envInv r
      | _ => True) ∧
    (∀ (st : ClientState) (oracle : Oracle) (entries : List Json),
      callInv (FdxService.createOrUpdateVaultEntry st oracle entries)) ∧
    (∀ (st : ClientState) (oracle : Oracle),
      callInv (FdxService.updateVaultEntries st oracle)) ∧
    (∀ (st : ClientState) (oracle : Oracle), callInv (FdxService.retrieveImport st oracle)) ∧
    (∀ (st : ClientState) (oracle : Oracle),
      callInv (FdxService.createOrUpdateImport st oracle)) ∧
    (∀ (st : ClientState) (oracle : Oracle),
      callInv (FdxService.getExistingExport st oracle)) ∧
    (∀ (st : ClientState) (oracle : Oracle) (existingExport : Option Json),
      callInv (FdxService.handleExistingExport st oracle existingExport)) ∧
    (∀ (st : ClientState) (oracle : Oracle) (exportData : Option Json),
      callInv (FdxService.runExportSchedule st oracle exportData)) ∧
    (∀ (st : ClientState) (oracle : Oracle) (hasTimeSlot : Bool),
      callInv (FdxService.createOrUpdateExport st oracle hasTimeSlot)) ∧
    (∀ (st : ClientState) (oracle : Oracle) (accountId : String),
      callInv (FdxService.createDb st oracle accountId)) ∧
    (∀ (st : ClientState) (oracle : Oracle) (dbId : String),
      callInv (FdxService.deleteDb st oracle dbId)) ∧
    (∀ (st : ClientState) (oracle : Oracle),
      callInv (FdxService.getFtpCredentials st oracle)) ∧
    (∀ (st : ClientState) (oracle : Oracle),
      callInv (FdxService.createJoinImport st oracle)) ∧
    (∀ (st : ClientState) (oracle : Oracle) (importId : String),
      callInv (FdxService.updateImportSchedule st oracle importId)) ∧
    (∀ (st : ClientState) (oracle : Oracle) (n : Nat),
      callInv (FdxService.createTransformers st oracle n)) ∧
    (∀ (st : ClientState) (oracle : Oracle) (n : Nat),
      callInv (FdxService.updateDbFields st oracle n)) ∧
    (∀ (st : ClientState) (oracle : Oracle) (importId : String),
      callInv (FdxService.runImport st oracle importId)) ∧
    (∀ (st : ClientState) (oracle : Oracle) (exportId : String),
      callInv (FdxService.runExport st oracle exportId)) ∧
    (∀ (st : ClientState) (oracle : Oracle) (params : FdxService.SetupParams),
      envInv (FdxService.setupBigCommerceIntegration st oracle params).1) := by
  exact ⟨envInv_request, envInv_processResponse,
    fun st oracle a => callInv_performRequest oracle _ _,
    fun st oracle => callInv_guard st oracle _ _,
    fun st oracle b => callInv_guard st oracle _ _,
    fun st oracle b => callInv_guard st oracle _ _,
    fun st oracle => callInv_performRequest oracle _ _,
    fun st oracle a => callInv_performRequest oracle _ _,
    fun st oracle d => callInv_performRequest oracle _ _,
    fun st oracle => callInv_performRequest oracle _ _,
    fun st oracle => callInv_performRequest oracle _ _,
    fun st oracle i => callInv_performRequest oracle _ _,
    fun st oracle i => callInv_performRequest oracle _ _,
    fun st oracle => callInv_guard st oracle _ _,
    fun st oracle => callInv_guard st oracle _ _,
    fun st oracle => callInv_guard st oracle _ _,
    fun st oracle => callInv_guard st oracle _ _,
    fun st oracle i => callInv_guard st oracle _ _,
    fun st oracle i => callInv_guard st oracle _ _,
    fun st oracle => callInv_guard st oracle _ _,
    fun st oracle => callInv_guard st oracle _ _,
    fun st oracle e => callInv_guard st oracle _ _,
    fun st oracle e => callInv_guard st oracle _ _,
    fun st oracle => callInv_guard st oracle _ _,
    fun st oracle => callInv_guard st oracle _ _,
    fun st oracle tr => callInv_guard st oracle _ _,
    fun st oracle => callInv_guard st oracle _ _,
    fun st oracle => callInv_guard st oracle _ _,
    fun st oracle => callInv_guard st oracle _ _,
    fun st oracle a => callInv_performRequest oracle _ _,
    fun st oracle => callInv_performRequest oracle _ _,
    fun st oracle g => callInv_performRequest oracle _ _,
    fun st oracle => callInv_performRequest oracle _ _,
    fun st oracle d => callInv_performRequest oracle _ _,
    fun st oracle d => callInv_performRequest oracle _ _,
    fun st oracle a => callInv_performRequest oracle _ _,
    fun st oracle => callInv_performRequest oracle _ _,
    fun st oracle d => callInv_performRequest oracle _ _,
    fun st oracle d => callInv_performRequest oracle _ _,
    fun st oracle d f => callInv_performRequest oracle _ _,
    callInv_retrieveAccounts,
    callInv_createAccount,
    callInv_getOrCreateAccount,
    callInv_findGroup,
    callInv_moveDbToGroup,
    deleteOldEntry_inv,
    callInv_createOrUpdateVaultEntry,
    callInv_updateVaultEntries,
    callInv_retrieveImport,
    callInv_createOrUpdateImport,
    callInv_getExistingExport,
    callInv_handleExistingExport,
    callInv_runExportSchedule,
    callInv_createOrUpdateExport,
    callInv_serviceCreateDb,
    callInv_serviceDeleteDb,
    callInv_getFtpCredentials,
    callInv_serviceCreateJoinImport,
    callInv_serviceUpdateImportSchedule,
    fun st oracle n => callInv_createTransformersLoop st oracle n [],
    fun st oracle n => callInv_updateDbFieldsLoop st oracle n [],
    callInv_runImport,
    callInv_runExport,
    setup_inv⟩

end Fdx
